import Mathlib

/-!
Verification development for the Vafrum core client (local printer gateway).

The JavaScript source (Electron main process and its headless variant, which
share the relevant logic verbatim) is shallowly embedded below: pure helpers
become Lean functions over `Int`/`Nat`/`Option`, JavaScript 32-bit coercions
(`ToInt32`/`ToUint32`) are made explicit, and the event-driven connection
manager becomes a step function over an explicit state type.
-/

namespace Vafrum

/-! ## ECMAScript numeric primitives

`toUint32`/`toInt32` are ECMAScript's ToUint32/ToInt32 on an integer input;
a general JS number (which may be NaN, infinite, or fractional) is modelled
by `JSNum` and truncated toward zero first, exactly as ToInt32 prescribes.
-/

def toUint32 (n : Int) : Nat := (n % (4294967296 : Int)).toNat

def toInt32 (n : Int) : Int :=
  let u := toUint32 n
  if u < 2147483648 then (u : Int) else (u : Int) - 4294967296

/-- A JavaScript number: NaN, an infinity, or a finite value (as a rational). -/
inductive JSNum where
  | nan : JSNum
  | posInf : JSNum
  | negInf : JSNum
  | fin : ℚ → JSNum
deriving DecidableEq

/-- ECMAScript ToInt32 of a JS number: NaN and infinities map to 0, finite
values are truncated toward zero and wrapped to a signed 32-bit value. -/
def JSNum.toI32 : JSNum → Int
  | .nan => 0
  | .posInf => 0
  | .negInf => 0
  | .fin q => toInt32 (if 0 ≤ q then ⌊q⌋ else ⌈q⌉)

/-- JS bitwise AND (`a & b`): both operands through ToInt32, bitwise AND of the
32-bit patterns, result read back as a signed 32-bit integer. -/
def jsAnd (a b : Int) : Int := toInt32 ((toUint32 a &&& toUint32 b : Nat) : Int)

/-- JS sign-propagating right shift (`a >> k`): shift count masked to 5 bits. -/
def jsShr (a : Int) (k : Nat) : Int := toInt32 a >>> (k % 32)

/-- JS left shift (`a << k`), keeping the low 32 bits of the result. -/
def jsShl (a : Int) (k : Nat) : Int :=
  toInt32 ((toUint32 a <<< (k % 32)) % 4294967296 : Nat)

/-- JS bitwise OR (`a | b`). -/
def jsOrb (a b : Int) : Int := toInt32 ((toUint32 a ||| toUint32 b : Nat) : Int)

/-! ## The packed-temperature decoder

Source (identical in both copies of the message handler):
```
const decodeTemp = (encoded) => {
  if (encoded === undefined || encoded === null || encoded === 0)
    return { current: 0, target: 0 };
  return { current: encoded & 0xFFFF, target: (encoded >> 16) & 0xFFFF };
};
```
The argument is a JSON field value: absent (`undefined`), `null`, or a number.
-/

/-- A JSON field value feeding `decodeTemp`. -/
inductive JVal where
  | undef : JVal
  | jnull : JVal
  | num : JSNum → JVal
deriving DecidableEq

structure TempPair where
  current : Int
  target : Int
deriving DecidableEq, Repr

/-- `decodeTemp` translated from the source. `encoded === 0` holds exactly for
the finite numeric value 0. -/
def decodeTemp (encoded : JVal) : TempPair :=
  match encoded with
  | .undef => ⟨0, 0⟩
  | .jnull => ⟨0, 0⟩
  | .num x =>
    if x = .fin 0 then ⟨0, 0⟩
    else ⟨jsAnd x.toI32 65535, jsAnd (jsShr x.toI32 16) 65535⟩

/-- The encoding the spec describes: `(target << 16) | current` as a 32-bit
value, under JS bitwise semantics. -/
def encodeTemp (current target : Int) : Int := jsOrb (jsShl target 16) current

/-! ## Device-session reconnect backoff

Source (`scheduleReconnect`, both copies):
```
const attempts = reconnectAttempts.get(serialNumber) || 0;
// Backoff: 5s, 10s, 20s, 40s, 60s, dann max 120s
const delay = Math.min(5000 * Math.pow(2, attempts), 120000);
reconnectAttempts.set(serialNumber, attempts + 1);
```
-/

/-- Delay (ms) computed by `scheduleReconnect` for a given attempt counter. -/
def reconnectDelay (attempts : Nat) : Nat := min (5000 * 2 ^ attempts) 120000

/-! ## Basic facts about the 32-bit primitives -/

theorem toUint32_lt (n : Int) : toUint32 n < 4294967296 := by
  have h1 : 0 ≤ n % (4294967296 : Int) := Int.emod_nonneg n (by norm_num)
  have h2 : n % (4294967296 : Int) < 4294967296 :=
    Int.emod_lt_of_pos n (by norm_num)
  simp only [toUint32]
  omega

theorem toUint32_natCast (n : Nat) (h : n < 4294967296) :
    toUint32 (n : Int) = n := by
  simp only [toUint32]
  omega

theorem toUint32_toInt32 (n : Int) : toUint32 (toInt32 n) = toUint32 n := by
  have h1 : 0 ≤ n % (4294967296 : Int) := Int.emod_nonneg n (by norm_num)
  have h2 : n % (4294967296 : Int) < 4294967296 :=
    Int.emod_lt_of_pos n (by norm_num)
  simp only [toInt32, toUint32]
  split <;> omega

theorem toInt32_def (n : Int) :
    toInt32 n = if toUint32 n < 2147483648 then (toUint32 n : Int)
      else (toUint32 n : Int) - 4294967296 := rfl

theorem toInt32_idem (n : Int) : toInt32 (toInt32 n) = toInt32 n := by
  rw [toInt32_def (toInt32 n), toUint32_toInt32, ← toInt32_def]

theorem toInt32_natCast (n : Nat) (h : n < 2147483648) :
    toInt32 (n : Int) = (n : Int) := by
  rw [toInt32_def, toUint32_natCast n (by omega), if_pos h]

/-- Masking with `0xFFFF` keeps the low 16 bits of the 32-bit pattern. -/
theorem jsAnd_65535 (a : Int) :
    jsAnd a 65535 = ((toUint32 a % 65536 : Nat) : Int) := by
  have hm : toUint32 (65535 : Int) = 65535 := toUint32_natCast 65535 (by norm_num)
  have hmask : toUint32 a &&& 65535 = toUint32 a % 65536 := by
    have h := Nat.and_pow_two_sub_one_eq_mod (toUint32 a) 16
    norm_num at h
    exact h
  have hlt : toUint32 a % 65536 < 65536 := Nat.mod_lt _ (by norm_num)
  rw [jsAnd, hm, hmask, toInt32_natCast _ (by omega)]

/-- OR of a value shifted past the low 16 bits with a 16-bit value is their sum. -/
theorem lor_mul_65536_add (t c : Nat) (hc : c < 65536) :
    ((t * 65536 : Nat) ||| c) = t * 65536 + c := by
  apply Nat.eq_of_testBit_eq
  intro i
  have hmul : t * 65536 = 2 ^ 16 * t := by ring
  rw [Nat.testBit_or, hmul,
    Nat.testBit_mul_pow_two_add t (show c < 2 ^ 16 by omega) i,
    Nat.testBit_mul_pow_two]
  by_cases h : i < 16
  · simp [h, Nat.not_le.mpr h]
  · have hpow : (65536 : Nat) ≤ 2 ^ i := by
      calc (65536 : Nat) = 2 ^ 16 := by norm_num
      _ ≤ 2 ^ i := Nat.pow_le_pow_right (by norm_num) (by omega)
    have hcbit : Nat.testBit c i = false :=
      Nat.testBit_lt_two_pow (lt_of_lt_of_le hc hpow)
    simp [h, Nat.le_of_not_lt, hcbit]

theorem encodeTemp_eq (c t : Nat) (hc : c ≤ 65535) (ht : t ≤ 65535) :
    encodeTemp (c : Int) (t : Int) = toInt32 ((t * 65536 + c : Nat) : Int) := by
  unfold encodeTemp jsShl jsOrb
  rw [toUint32_natCast t (by omega)]
  have h1 : (t <<< (16 % 32)) % 4294967296 = t * 65536 := by
    have ht16 : t <<< 16 = t * 65536 := by rw [Nat.shiftLeft_eq]
    rw [show (16 % 32 : Nat) = 16 from rfl, ht16, Nat.mod_eq_of_lt (by omega)]
  rw [h1, toUint32_toInt32, toUint32_natCast _ (by omega),
    toUint32_natCast c (by omega), lor_mul_65536_add t c (by omega)]

/-- `decodeTemp` applied to a nonzero integer-valued JS number, expressed via
the 32-bit pattern of the input. -/
theorem decodeTemp_int (x : Int) (hx : x ≠ 0) :
    decodeTemp (.num (.fin (x : ℚ))) =
      ⟨((toUint32 x % 65536 : Nat) : Int),
       ((toUint32 (toInt32 x / 65536) % 65536 : Nat) : Int)⟩ := by
  have hfin : (JSNum.fin (x : ℚ)) ≠ .fin 0 := by
    simp only [ne_eq, JSNum.fin.injEq]
    exact_mod_cast hx
  have htoI : (JSNum.fin ((x : Int) : ℚ)).toI32 = toInt32 x := by
    simp only [JSNum.toI32]
    split
    · rw [Int.floor_intCast]
    · rw [Int.ceil_intCast]
  simp only [decodeTemp, if_neg hfin, htoI]
  have hshr : jsShr (toInt32 x) 16 = toInt32 x / 65536 := by
    rw [jsShr, toInt32_idem, Int.shiftRight_eq_div_pow]
    norm_num
  rw [hshr, jsAnd_65535, jsAnd_65535, toUint32_toInt32]

/-- `C5`: the packed-temperature decoder maps `0`/`undefined`/`null` to
`{current: 0, target: 0}` and otherwise extracts `v & 0xFFFF` and
`(v >> 16) & 0xFFFF`; consequently, for all current and target in
`[0, 65535]`, decoding the 32-bit encoding `(target << 16) | current`
returns exactly `(current, target)`. -/
theorem decodeTemp_encodeTemp (c t : Nat) (hc : c ≤ 65535) (ht : t ≤ 65535) :
    decodeTemp .undef = ⟨0, 0⟩ ∧ decodeTemp .jnull = ⟨0, 0⟩ ∧
    decodeTemp (.num (.fin 0)) = ⟨0, 0⟩ ∧
    decodeTemp (.num (.fin ((encodeTemp (c : Int) (t : Int) : Int) : ℚ))) =
      ⟨(c : Int), (t : Int)⟩ := by
  refine ⟨rfl, rfl, rfl, ?_⟩
  rw [encodeTemp_eq c t hc ht]
  have hult : t * 65536 + c < 4294967296 := by omega
  have hw : toInt32 ((t * 65536 + c : Nat) : Int) =
      if t * 65536 + c < 2147483648 then ((t * 65536 + c : Nat) : Int)
      else ((t * 65536 + c : Nat) : Int) - 4294967296 := by
    rw [toInt32_def, toUint32_natCast _ hult]
  by_cases hz : t * 65536 + c = 0
  · have hc0 : c = 0 := by omega
    have ht0 : t = 0 := by omega
    subst hc0 ht0
    have h0 : toInt32 ((0 * 65536 + 0 : Nat) : Int) = 0 := by
      norm_num at hw
      simpa using hw
    rw [h0]
    norm_num
    rfl
  · have hwne : toInt32 ((t * 65536 + c : Nat) : Int) ≠ 0 := by
      rw [hw]; split
      · exact_mod_cast hz
      · have : ((t * 65536 + c : Nat) : Int) < 4294967296 := by exact_mod_cast hult
        omega
    rw [decodeTemp_int _ hwne, toInt32_idem, toUint32_toInt32,
      toUint32_natCast _ hult]
    have hcur : (t * 65536 + c) % 65536 = c := by omega
    have htar : toUint32 (toInt32 ((t * 65536 + c : Nat) : Int) / 65536) % 65536 = t := by
      rw [hw]
      split
      · have hdiv : ((t * 65536 + c : Nat) : Int) / 65536 = (t : Int) := by
          push_cast; omega
        rw [hdiv]
        have := toUint32_natCast t (by omega)
        push_cast at this
        rw [this]
        omega
      · have hdiv : (((t * 65536 + c : Nat) : Int) - 4294967296) / 65536 =
            (t : Int) - 65536 := by
          push_cast; omega
        rw [hdiv]
        simp only [toUint32]
        omega
    rw [hcur, htar]

/-- Witness for `decodeTemp_encodeTemp` at the spec's H2D scenario values
(current 150, target 225): decoding 0x00E10096 yields them back. -/
theorem decodeTemp_encodeTemp_witness :
    decodeTemp (.num (.fin ((encodeTemp (150 : Int) (225 : Int) : Int) : ℚ))) =
      ⟨(150 : Int), (225 : Int)⟩ :=
  (decodeTemp_encodeTemp 150 225 (by norm_num) (by norm_num)).2.2.2

/-- `C10` (implicit): the packed-temperature decoder is total and
range-bounded — for every JS field value (undefined, null, NaN, infinities,
negative, fractional, or huge numbers), both decoded components are integers
in `[0, 65535]`. -/
theorem decodeTemp_bounded (v : JVal) :
    0 ≤ (decodeTemp v).current ∧ (decodeTemp v).current ≤ 65535 ∧
    0 ≤ (decodeTemp v).target ∧ (decodeTemp v).target ≤ 65535 := by
  cases v with
  | undef =>
    refine ⟨le_refl 0, by norm_num [decodeTemp], le_refl 0, by norm_num [decodeTemp]⟩
  | jnull =>
    refine ⟨le_refl 0, by norm_num [decodeTemp], le_refl 0, by norm_num [decodeTemp]⟩
  | num x =>
    by_cases h : x = .fin 0
    · simp only [decodeTemp, if_pos h]
      refine ⟨le_refl 0, by norm_num, le_refl 0, by norm_num⟩
    · simp only [decodeTemp, if_neg h]
      have h1 : toUint32 x.toI32 % 65536 < 65536 := Nat.mod_lt _ (by norm_num)
      have h2 : toUint32 (jsShr x.toI32 16) % 65536 < 65536 := Nat.mod_lt _ (by norm_num)
      rw [jsAnd_65535, jsAnd_65535]
      refine ⟨by positivity, by exact_mod_cast by omega, by positivity,
        by exact_mod_cast by omega⟩

/-- `C2`: the delays actually produced by `scheduleReconnect` for attempt
counters 0 through 6 — the fifth delay is 80 s, not the 60 s stated by the
claim and by the comment in the source. -/
theorem reconnectDelay_actual_sequence :
    (List.range 7).map reconnectDelay =
      [5000, 10000, 20000, 40000, 80000, 120000, 120000] ∧
    reconnectDelay 4 = 80000 ∧ reconnectDelay 4 ≠ 60000 := by
  refine ⟨by decide, by decide, by decide⟩

/-! ## The per-serial connection manager as a transition system

The source keeps, per serial: `mqttClients` (the registered session),
`printerDataCache` (descriptor cache used for reconnects),
`printerReconnectTimers` (the stored reconnect-timer handle),
`reconnectAttempts` (the backoff counter), and the `mqtt.connect` client
objects themselves with their asynchronous `connect`/`close` callbacks.
All of these maps are keyed by serial and every handler touches only one
serial's entries, so the state below is the faithful slice for one serial.
A client object is identified by its creation index; `pendingTimers` holds
the `setTimeout` handles that have been created and neither fired nor been
cancelled (`timerMap` is the handle stored in `printerReconnectTimers`,
which `scheduleReconnect` overwrites without `clearTimeout`).
-/

/-- Phase of one `mqtt.connect` client object (`reconnectPeriod: 0`, so a
client connects at most once and closes at most once). -/
inductive ClientPhase where
  | connecting : ClientPhase
  | connected : ClientPhase
  | closed : ClientPhase
deriving DecidableEq, Repr

structure ConnState where
  clients : List ClientPhase
  reg : Option Nat
  cache : Bool
  timerMap : Option Nat
  pendingTimers : List Nat
  attempts : Option Nat
  nextTimer : Nat
deriving DecidableEq, Repr

def ConnState.init : ConnState :=
  ⟨[], none, false, none, [], none, 0⟩

/-- `connectPrinter(printer)`:
```
if (mqttClients.has(printer.serialNumber)) return;
printerDataCache.set(printer.serialNumber, printer);
if (printerReconnectTimers.has(printer.serialNumber)) {
  clearTimeout(...); printerReconnectTimers.delete(...);
}
const client = mqtt.connect(...);  // callbacks fire as later events
```
-/
def connectPrinter (s : ConnState) : ConnState :=
  if s.reg.isSome then s
  else
    let s1 : ConnState := { s with cache := true }
    let s2 : ConnState :=
      match s1.timerMap with
      | some t => { s1 with pendingTimers := s1.pendingTimers.erase t, timerMap := none }
      | none => s1
    { s2 with clients := s2.clients ++ [.connecting] }

/-- `scheduleReconnect(serialNumber)`:
```
const cached = printerDataCache.get(serialNumber);
if (!cached) return;
if (mqttClients.has(serialNumber)) return;
const attempts = reconnectAttempts.get(serialNumber) || 0;
reconnectAttempts.set(serialNumber, attempts + 1);
const timer = setTimeout(...);
printerReconnectTimers.set(serialNumber, timer);
```
-/
def scheduleReconnect (s : ConnState) : ConnState :=
  if ¬ s.cache then s
  else if s.reg.isSome then s
  else
    { s with attempts := some (s.attempts.getD 0 + 1),
             pendingTimers := s.nextTimer :: s.pendingTimers,
             timerMap := some s.nextTimer,
             nextTimer := s.nextTimer + 1 }

/-- Events of the per-serial connection manager. -/
inductive ConnEvent where
  | rosterConnect : ConnEvent
  | clientConnect : Nat → ConnEvent
  | clientClose : Nat → ConnEvent
  | timerFire : Nat → ConnEvent
  | printerRemove : ConnEvent
deriving DecidableEq, Repr

/-- One step of the connection manager. `rosterConnect` is a
`printers:list`/`printer:add` delivery for this serial; `clientConnect i` /
`clientClose i` are the `connect`/`close` callbacks of client `i`;
`timerFire t` is the reconnect `setTimeout` callback; `printerRemove` is the
`printer:remove` handler:
```
const client = mqttClients.get(data.serialNumber);
if (client) {
  client.end(); mqttClients.delete(...); printers.delete(...);
  cameraUrls.delete(...); cameraStreams.delete(...); stopJpegStream(...);
}
```
(`client.end()` only makes the client's later `close` event inevitable; the
handler touches neither `printerReconnectTimers` nor `printerDataCache`.)
The `close` handler deletes the serial's registry entry and calls
`scheduleReconnect`; the timer callback deletes the stored handle and calls
`connectPrinter(cached)` when no session is registered. -/
def step (s : ConnState) : ConnEvent → ConnState
  | .rosterConnect => connectPrinter s
  | .clientConnect i =>
    if s.clients.getD i .closed = .connecting then
      { s with clients := s.clients.set i .connected,
               reg := some i,
               attempts := none }
    else s
  | .clientClose i =>
    if s.clients.getD i .closed ≠ .closed then
      scheduleReconnect
        { s with clients := s.clients.set i .closed, reg := none }
    else s
  | .timerFire t =>
    if t ∈ s.pendingTimers then
      let s1 : ConnState :=
        { s with pendingTimers := s.pendingTimers.erase t, timerMap := none }
      if s1.reg.isNone then connectPrinter s1 else s1
    else s
  | .printerRemove =>
    match s.reg with
    | some _ => { s with reg := none }
    | none => s

def run (s : ConnState) (evs : List ConnEvent) : ConnState :=
  evs.foldl step s

/-- Number of clients whose connection is currently live (connected, not
closed). -/
def liveSessions (s : ConnState) : Nat :=
  (s.clients.filter (· = .connected)).length

/-- `C1`: executing the code on the scenario "connection lost (reconnect
timer now pending), then `printer:remove`, then the timer fires": the
removal leaves the pending timer and the cached descriptor untouched (it is
a complete no-op, because no session is registered), and when the timer
fires a new connection attempt is made for the removed serial — contradicting
the claim that removal cancels the timer and prevents any further attempt. -/
theorem remove_does_not_cancel_pending_reconnect :
    (run .init [.rosterConnect, .clientConnect 0, .clientClose 0]).timerMap = some 0 ∧
    run .init [.rosterConnect, .clientConnect 0, .clientClose 0, .printerRemove] =
      run .init [.rosterConnect, .clientConnect 0, .clientClose 0] ∧
    (run .init [.rosterConnect, .clientConnect 0, .clientClose 0, .printerRemove,
      .timerFire 0]).clients.length = 2 := by
  refine ⟨by decide, by decide, by decide⟩

/-- `C7`: executing the code on the scenario "two roster deliveries for the
same serial before either MQTT client has finished connecting": both clients
are created (the `mqttClients.has` guard sees no registered session yet) and
both subsequently connect, leaving two concurrent live sessions for one
serial — contradicting the claimed invariant. -/
theorem two_concurrent_sessions_reachable :
    liveSessions (run .init
      [.rosterConnect, .rosterConnect, .clientConnect 0, .clientConnect 1]) = 2 := by
  decide

/-! ## JPEG frame extraction (`processJpegBuffer`)

Source:
```
const JPEG_START = Buffer.from([0xFF, 0xD8]);
const JPEG_END = Buffer.from([0xFF, 0xD9]);
while (true) {
  const startIdx = streamData.buffer.indexOf(JPEG_START);
  if (startIdx === -1) { streamData.buffer = Buffer.alloc(0); return; }
  if (startIdx > 0) { streamData.buffer = streamData.buffer.slice(startIdx); }
  const endIdx = streamData.buffer.indexOf(JPEG_END, 2);
  if (endIdx === -1) { return; }
  const jpegData = streamData.buffer.slice(0, endIdx + 2);
  streamData.buffer = streamData.buffer.slice(endIdx + 2);
  if (jpegData.length > 100) {
    streamData.lastFrame = jpegData;
    ...
    streamData.clients.forEach(client => { sendJpegFrame(client, jpegData); });
  }
}
```
Bytes are modelled as naturals (`0xFF = 255`, `0xD8 = 216`, `0xD9 = 217`);
`findPair a b` is `Buffer.indexOf` of the two-byte pattern `[a, b]`.
The function returns the frames fanned out to viewers (in order), the final
buffer, and the final cached last frame. -/

def findPair (a b : Nat) : List Nat → Option Nat
  | [] => none
  | [_] => none
  | x :: y :: rest =>
    if x = a ∧ y = b then some 0
    else (findPair a b (y :: rest)).map (· + 1)

theorem findPair_le_length {a b i : Nat} :
    ∀ {l : List Nat}, findPair a b l = some i → i + 2 ≤ l.length
  | [], h => by simp [findPair] at h
  | [_], h => by simp [findPair] at h
  | x :: y :: rest, h => by
    rw [findPair] at h
    split at h
    · simp only [Option.some.injEq] at h
      simp only [List.length_cons]
      omega
    · cases hrec : findPair a b (y :: rest) with
      | none => rw [hrec] at h; simp at h
      | some j =>
        rw [hrec] at h
        simp only [Option.map_some', Option.some.injEq] at h
        have h2 := findPair_le_length hrec
        simp only [List.length_cons] at h2 ⊢
        omega

def processJpegBuffer (buf : List Nat) (lastFrame : Option (List Nat)) :
    List (List Nat) × List Nat × Option (List Nat) :=
  match hs : findPair 255 216 buf with
  | none => ([], [], lastFrame)
  | some startIdx =>
    let buf1 := buf.drop startIdx
    match findPair 255 217 (buf1.drop 2) with
    | none => ([], buf1, lastFrame)
    | some rel =>
      let endIdx := rel + 2
      let jpegData := buf1.take (endIdx + 2)
      let buf2 := buf1.drop (endIdx + 2)
      if 100 < jpegData.length then
        let r := processJpegBuffer buf2 (some jpegData)
        (jpegData :: r.1, r.2)
      else
        processJpegBuffer buf2 lastFrame
  termination_by buf.length
  decreasing_by
  all_goals
    simp only [buf2, buf1, List.length_drop]
    have h1 := findPair_le_length hs
    omega

theorem findPair_cons_self (a b : Nat) (rest : List Nat) :
    findPair a b (a :: b :: rest) = some 0 := by
  simp [findPair]

/-- Searching a concatenation whose left part contains no occurrence and whose
right part does not start with the pattern's second byte finds the pattern in
the right part (shifted by the left part's length). -/
theorem findPair_append (a b : Nat) (xs ys : List Nat)
    (hxs : findPair a b xs = none)
    (hhead : ∀ y, ys.head? = some y → y ≠ b) :
    findPair a b (xs ++ ys) = (findPair a b ys).map (· + xs.length) := by
  induction xs with
  | nil =>
    simp only [List.nil_append, List.length_nil]
    cases findPair a b ys <;> simp
  | cons x xs ih =>
    cases xs with
    | nil =>
      cases ys with
      | nil => simp [findPair, hxs]
      | cons y ys' =>
        have hy : y ≠ b := hhead y rfl
        simp only [List.cons_append, List.nil_append, findPair]
        rw [if_neg (by tauto)]
        cases findPair a b (y :: ys') <;> simp
    | cons x' xs' =>
      rw [findPair] at hxs
      split at hxs
      · simp at hxs
      · rename_i hcond
        simp only [Option.map_eq_none'] at hxs
        have htail := ih hxs
        simp only [List.cons_append] at htail ⊢
        rw [findPair, if_neg hcond, htail]
        cases findPair a b ys with
        | none => simp
        | some v =>
          simp only [Option.map_some', Option.some.injEq, List.length_cons]
          omega

/-- Terminal case: no start marker (in particular, an empty buffer) clears
the buffer and emits nothing. -/
theorem processJpegBuffer_eq_none (buf : List Nat) (lf : Option (List Nat))
    (h : findPair 255 216 buf = none) :
    processJpegBuffer buf lf = ([], [], lf) := by
  unfold processJpegBuffer
  split
  · rfl
  · rename_i s hs
    rw [h] at hs
    cases hs

/-- One loop iteration when both markers are found. -/
theorem processJpegBuffer_eq_step (buf : List Nat) (lf : Option (List Nat))
    (startIdx rel : Nat)
    (h1 : findPair 255 216 buf = some startIdx)
    (h2 : findPair 255 217 ((buf.drop startIdx).drop 2) = some rel) :
    processJpegBuffer buf lf =
      if 100 < ((buf.drop startIdx).take (rel + 2 + 2)).length then
        (((buf.drop startIdx).take (rel + 2 + 2)) ::
          (processJpegBuffer ((buf.drop startIdx).drop (rel + 2 + 2))
            (some ((buf.drop startIdx).take (rel + 2 + 2)))).1,
         (processJpegBuffer ((buf.drop startIdx).drop (rel + 2 + 2))
            (some ((buf.drop startIdx).take (rel + 2 + 2)))).2)
      else
        processJpegBuffer ((buf.drop startIdx).drop (rel + 2 + 2)) lf := by
  conv_lhs => rw [processJpegBuffer.eq_def]
  split
  · rename_i hs
    rw [h1] at hs
    cases hs
  · rename_i s hs
    rw [h1] at hs
    injection hs with hs
    subst hs
    simp only [h2]

/-- Processing a buffer of the form `noise ++ frame ++ rest` where the noise
contains no start marker and the frame body contains no end marker: the noise
is discarded, the frame is extracted, and processing continues on `rest`
(emitting and caching the frame only when it is longer than 100 bytes). -/
theorem processJpegBuffer_noise_frame (noise b rest : List Nat)
    (lf : Option (List Nat))
    (hn : findPair 255 216 noise = none)
    (hb : findPair 255 217 b = none) :
    processJpegBuffer (noise ++ ((255 :: 216 :: (b ++ [255, 217])) ++ rest)) lf =
      if 100 < (255 :: 216 :: (b ++ [255, 217])).length then
        ((255 :: 216 :: (b ++ [255, 217])) ::
          (processJpegBuffer rest (some (255 :: 216 :: (b ++ [255, 217])))).1,
         (processJpegBuffer rest (some (255 :: 216 :: (b ++ [255, 217])))).2)
      else processJpegBuffer rest lf := by
  have hshape : (255 :: 216 :: (b ++ [255, 217])) ++ rest =
      255 :: 216 :: (b ++ (255 :: 217 :: rest)) := by simp
  have hstart : findPair 255 216
      (noise ++ ((255 :: 216 :: (b ++ [255, 217])) ++ rest)) = some noise.length := by
    rw [findPair_append 255 216 noise _ hn
      (by rw [hshape]; intro y hy; simp at hy; omega)]
    rw [hshape, findPair_cons_self]
    simp
  have hend : findPair 255 217
      (((noise ++ ((255 :: 216 :: (b ++ [255, 217])) ++ rest)).drop noise.length).drop 2) =
        some b.length := by
    rw [List.drop_left, hshape]
    have hdrop2 : (255 :: 216 :: (b ++ (255 :: 217 :: rest))).drop 2 =
        b ++ (255 :: 217 :: rest) := rfl
    rw [hdrop2, findPair_append 255 217 b _ hb (by intro y hy; simp at hy; omega),
      findPair_cons_self]
    simp
  rw [processJpegBuffer_eq_step _ lf noise.length b.length hstart hend]
  have hflen : (255 :: 216 :: (b ++ [255, 217])).length = b.length + 2 + 2 := by
    simp only [List.length_cons, List.length_append, List.length_nil]
  rw [List.drop_left, List.take_left' hflen, List.drop_left' hflen]

/-- `C8`: JPEG frame extraction over the receive buffer. For an input of the
form `noise · FFD8 · body1 · FFD9 · FFD8 · body2 · FFD9` (no start marker in
the noise, no end marker inside a body, both spans longer than 100 bytes),
exactly the two frames are emitted, in order, each starting with FFD8 and
ending with FFD9; the second is cached as last frame and the buffer is fully
drained. A start-to-end span of at most 100 bytes (`bs`) is consumed but
neither emitted nor cached. -/
theorem processJpegBuffer_two_frames (noise b1 b2 bs : List Nat)
    (lf : Option (List Nat))
    (hn : findPair 255 216 noise = none)
    (hb1 : findPair 255 217 b1 = none)
    (hb2 : findPair 255 217 b2 = none)
    (hl1 : 100 < b1.length + 4) (hl2 : 100 < b2.length + 4)
    (hbs : findPair 255 217 bs = none) (hshort : bs.length + 4 ≤ 100) :
    processJpegBuffer
        (noise ++ (255 :: 216 :: (b1 ++ [255, 217])) ++ (255 :: 216 :: (b2 ++ [255, 217]))) lf =
      ([255 :: 216 :: (b1 ++ [255, 217]), 255 :: 216 :: (b2 ++ [255, 217])],
        [], some (255 :: 216 :: (b2 ++ [255, 217]))) ∧
    processJpegBuffer (255 :: 216 :: (bs ++ [255, 217])) lf = ([], [], lf) := by
  have hnilstart : findPair 255 216 ([] : List Nat) = none := rfl
  have hnil : ∀ lf' : Option (List Nat), processJpegBuffer [] lf' = ([], [], lf') :=
    fun lf' => processJpegBuffer_eq_none [] lf' rfl
  constructor
  · rw [List.append_assoc,
      processJpegBuffer_noise_frame noise b1 _ lf hn hb1,
      if_pos (by simp only [List.length_cons, List.length_append, List.length_nil]; omega)]
    have h2 := processJpegBuffer_noise_frame [] b2 []
      (some (255 :: 216 :: (b1 ++ [255, 217]))) hnilstart hb2
    simp only [List.nil_append, List.append_nil] at h2
    rw [h2,
      if_pos (by simp only [List.length_cons, List.length_append, List.length_nil]; omega),
      hnil]
  · have h3 := processJpegBuffer_noise_frame [] bs [] lf hnilstart hbs
    simp only [List.nil_append, List.append_nil] at h3
    rw [h3,
      if_neg (by simp only [List.length_cons, List.length_append, List.length_nil]; omega),
      hnil]

/-- Witness for `processJpegBuffer_two_frames`: two 101-byte frames behind
two noise bytes are both extracted, and a 9-byte span is dropped. -/
theorem processJpegBuffer_two_frames_witness :
    processJpegBuffer
        ([1, 2] ++ (255 :: 216 :: (List.replicate 97 9 ++ [255, 217]))
          ++ (255 :: 216 :: (List.replicate 98 8 ++ [255, 217]))) none =
      ([255 :: 216 :: (List.replicate 97 9 ++ [255, 217]),
        255 :: 216 :: (List.replicate 98 8 ++ [255, 217])],
        [], some (255 :: 216 :: (List.replicate 98 8 ++ [255, 217]))) ∧
    processJpegBuffer (255 :: 216 :: (([3, 4, 5, 6, 7] : List Nat) ++ [255, 217])) none =
      ([], [], none) :=
  processJpegBuffer_two_frames [1, 2] (List.replicate 97 9) (List.replicate 98 8)
    [3, 4, 5, 6, 7] none (by decide) (by decide) (by decide) (by decide) (by decide)
    (by decide) (by decide)

/-! ## Command translation (`executeCommand`)

```
function executeCommand(serialNumber, command) {
  const client = mqttClients.get(serialNumber);
  if (!client) { sendLog('FEHLER: Kein MQTT Client für ' + serialNumber + ...); return; }
  const topic = 'device/' + serialNumber + '/request';
  const cmd = typeof command === 'string' ? { type: command } : command;
  let payload = {};
  switch (cmd.type) { ... }
  client.publish(topic, JSON.stringify(payload), ...);
}
```
The function only reads the registry (`mqttClients` membership, and the
printer's model string for `workLight`); its observable effects are the
publishes it performs, the delayed `pushall` follow-up scheduled after an
acknowledged `ams_filament_setting`, the debug flag/timer it sets on that
same path, and the "no session" log line. -/

/-- `String.prototype.includes` (substring test), on char lists. -/
def charsStart : List Char → List Char → Bool
  | [], _ => true
  | _ :: _, [] => false
  | p :: ps, c :: cs => p == c && charsStart ps cs

def charsContain (pat : List Char) : List Char → Bool
  | [] => pat.isEmpty
  | c :: rest => charsStart pat (c :: rest) || charsContain pat rest

def jsIncludes (s sub : String) : Bool := charsContain sub.toList s.toList

/-- `Math.round((cmd.speed || 0) * 2.55)` in exact arithmetic (round half
toward +∞). The source computes this in binary floating point, whose
rounding of `2.55` can differ on exact-tie inputs; no claim depends on it. -/
def jsRound255 (speed : Int) : Int := (speed * 102 + 20) / 40

/-- An abstract inbound command (`data.command`); a bare string command `k`
arrives as `{ type: k }`, i.e. with all parameter fields absent. -/
inductive Command where
  | pause : Command
  | resume : Command
  | stop : Command
  | chamberLight : Bool → Command
  | light : Bool → Command
  | workLight : Bool → Command
  | nozzleTemp : Int → Command
  | nozzle2Temp : Int → Command
  | bedTemp : Int → Command
  | partFan : Option Int → Command
  | auxFan : Option Int → Command
  | chamberFan : Option Int → Command
  | speedLevel : Int → Command
  | amsUnload : Command
  | unloadFilament : Command
  | amsLoad : Option Int → Option Int → Command
  | loadFilament : Option Int → Option Int → Command
  | gcode : String → Command
  | home : Command
  | calibration : String → Command
  | move : Option Int → Option String → Command
  | amsFilamentSetting : Int → Int → Option String → String → String → Int → Int → Command
  | unknown : Command
deriving DecidableEq

/-- Shape of one published protocol message (the JSON payload templates of
the `switch`; constant fields such as `led_on_time: 500` or
`user_id: '1234567890'` are fixed by the constructor). -/
inductive Payload where
  | printCmd : String → Payload
  | ledctrl : String → String → Payload
  | gcodeLine : String → Payload
  | printSpeed : String → Payload
  | amsChangeFilament : Int → Payload
  | amsFilamentSettingMsg : Int → Int → String → String → Int → Int → String → Payload
deriving DecidableEq

/-- Registry slice read by `executeCommand`: which serials have a live
session, and each printer's model string. -/
structure Gateway where
  mqttClients : List String
  printerModels : List (String × String)
deriving DecidableEq

/-- Observable effects of one `executeCommand` call. -/
structure CommandEffects where
  publishes : List (String × Payload)
  pushallFollowUp : Bool
  debugAmsTimer : Bool
  noSessionLog : Bool
deriving DecidableEq

def noEffects : CommandEffects := ⟨[], false, false, false⟩

def filamentCodeMap : List (String × String) :=
  [("PLA", "GFL99"), ("PLA-S", "GFL96"), ("PLA-CF", "GFL98"),
   ("PETG", "GFG99"), ("PETG-CF", "GFG98"),
   ("ABS", "GFB99"), ("ASA", "GFB98"),
   ("TPU", "GFU99"), ("PA", "GFN99"), ("PA-CF", "GFN98"),
   ("PC", "GFC99"), ("PVA", "GFS99"), ("HIPS", "GFS98")]

def executeCommand (st : Gateway) (serialNumber : String) (cmd : Command) :
    CommandEffects :=
  if serialNumber ∉ st.mqttClients then
    { noEffects with noSessionLog := true }
  else
    let topic := "device/" ++ serialNumber ++ "/request"
    match cmd with
    | .pause => { noEffects with publishes := [(topic, .printCmd "pause")] }
    | .resume => { noEffects with publishes := [(topic, .printCmd "resume")] }
    | .stop => { noEffects with publishes := [(topic, .printCmd "stop")] }
    | .chamberLight isOn =>
      { noEffects with publishes :=
          [(topic, .ledctrl "chamber_light" (if isOn then "on" else "off"))] }
    | .light isOn =>
      { noEffects with publishes :=
          [(topic, .ledctrl "chamber_light" (if isOn then "on" else "off"))] }
    | .workLight isOn =>
      let modelUpperWL := ((st.printerModels.lookup serialNumber).getD "").toUpper
      let ledModeWL := if isOn then "on" else "off"
      if jsIncludes modelUpperWL "A1" then
        { noEffects with publishes :=
            [(topic, .ledctrl "chamber_light" ledModeWL),
             (topic, .ledctrl "work_light" ledModeWL)] }
      else if jsIncludes modelUpperWL "H2D" || jsIncludes modelUpperWL "H2S"
          || jsIncludes modelUpperWL "H2C" || jsIncludes modelUpperWL "X1" then
        { noEffects with publishes := [(topic, .ledctrl "chamber_light2" ledModeWL)] }
      else
        { noEffects with publishes := [(topic, .ledctrl "work_light" ledModeWL)] }
    | .nozzleTemp temp =>
      { noEffects with publishes :=
          [(topic, .gcodeLine ("M104 S" ++ toString temp ++ "\n"))] }
    | .nozzle2Temp temp =>
      { noEffects with publishes :=
          [(topic, .gcodeLine ("M104 T1 S" ++ toString temp ++ "\n"))] }
    | .bedTemp temp =>
      { noEffects with publishes :=
          [(topic, .gcodeLine ("M140 S" ++ toString temp ++ "\n"))] }
    | .partFan speed =>
      { noEffects with publishes :=
          [(topic, .gcodeLine ("M106 P1 S" ++ toString (jsRound255 (speed.getD 0)) ++ "\n"))] }
    | .auxFan speed =>
      { noEffects with publishes :=
          [(topic, .gcodeLine ("M106 P2 S" ++ toString (jsRound255 (speed.getD 0)) ++ "\n"))] }
    | .chamberFan speed =>
      { noEffects with publishes :=
          [(topic, .gcodeLine ("M106 P3 S" ++ toString (jsRound255 (speed.getD 0)) ++ "\n"))] }
    | .speedLevel level =>
      { noEffects with publishes := [(topic, .printSpeed (toString level))] }
    | .amsUnload => { noEffects with publishes := [(topic, .amsChangeFilament 255)] }
    | .unloadFilament => { noEffects with publishes := [(topic, .amsChangeFilament 255)] }
    | .amsLoad slot trayId =>
      { noEffects with publishes :=
          [(topic, .amsChangeFilament ((slot.or trayId).getD 0))] }
    | .loadFilament slot trayId =>
      { noEffects with publishes :=
          [(topic, .amsChangeFilament ((slot.or trayId).getD 0))] }
    | .gcode g =>
      { noEffects with publishes := [(topic, .gcodeLine (g ++ "\n"))] }
    | .home =>
      { noEffects with publishes := [(topic, .gcodeLine "G28\n")] }
    | .calibration calibrationType =>
      if calibrationType = "home" then
        { noEffects with publishes := [(topic, .gcodeLine "G28\n")] }
      else if calibrationType = "bed_level" then
        { noEffects with publishes := [(topic, .gcodeLine "G29\n")] }
      else noEffects
    | .move distance axis =>
      let dist := match distance with
        | some d => if d = 0 then 10 else d
        | none => 10
      let ax := match axis with
        | some a => if a = "" then "X" else a
        | none => "X"
      { noEffects with publishes :=
          [(topic, .gcodeLine "G91\n"),
           (topic, .gcodeLine ("G0 " ++ ax ++ toString dist ++ " F3000\n")),
           (topic, .gcodeLine "G90\n")] }
    | .amsFilamentSetting amsId trayId trayInfoIdx trayType trayColor nMin nMax =>
      let filamentCode :=
        match trayInfoIdx with
        | some idx => if idx = "" then (filamentCodeMap.lookup trayType).getD "GFL99" else idx
        | none => (filamentCodeMap.lookup trayType).getD "GFL99"
      { publishes :=
          [(topic, .amsFilamentSettingMsg amsId trayId filamentCode trayColor nMin nMax trayType)],
        pushallFollowUp := true,
        debugAmsTimer := true,
        noSessionLog := false }
    | .unknown => noEffects

/-- `C9`: for a serial with no live session, executing any command is a
no-op — the "no session" condition is logged, nothing is published to any
topic, no follow-up or timer is scheduled (commands are not queued or
retried), and nothing else changes. -/
theorem executeCommand_no_session (st : Gateway) (serialNumber : String)
    (cmd : Command) (h : serialNumber ∉ st.mqttClients) :
    executeCommand st serialNumber cmd =
      { publishes := [], pushallFollowUp := false, debugAmsTimer := false,
        noSessionLog := true } := by
  rw [executeCommand, if_pos h]
  rfl

/-- Witness for `executeCommand_no_session`: a registry with one session for
serial "B" ignores a pause command addressed to serial "A". -/
theorem executeCommand_no_session_witness :
    executeCommand ⟨["B"], [("B", "X1C")]⟩ "A" .pause =
      { publishes := [], pushallFollowUp := false, debugAmsTimer := false,
        noSessionLog := true } :=
  executeCommand_no_session ⟨["B"], [("B", "X1C")]⟩ "A" .pause (by decide)

/-! ## The telemetry reconciler (`client.on('message')` merge)

The message handler (identical logic in both copies) merges a raw `print`
report into the stored per-serial status. The embedding below follows the
handler's stages in source order: the CTC chamber-temperature pre-step, the
stale-data fix, the printing-to-idle transition reset, the per-model nozzle
temperature selection, and the final status object.

Representation choices: JSON numbers are rationals; report fields that the
source reads as numeric strings (`parseInt`/`parseFloat` results) are
carried pre-parsed as `Option` of the numeric type, with `none` for
absent/empty/unparseable — the merge only passes these values through, so
this is behaviour-preserving. The packed extruder temperatures keep the full
JS value domain (`JVal`) because they go through `decodeTemp`. The debug-only
`_h2debug` field (a function of the report and model flag alone, never read
back) is omitted. -/

structure LightNode where
  node : String
  mode : String
deriving DecidableEq

/-- One `hms` hazard entry (`{attr, code}`), passed through verbatim. -/
structure HmsEntry where
  attr : ℚ
  code : ℚ
deriving DecidableEq

/-- A parsed feeder-slot record as built by the merge (fields of the tray
objects pushed onto `ams.trays`). -/
structure Tray where
  id : Nat
  unitId : Nat
  slot : Nat
  type : String
  color : String
  name : String
  remain : Int
  k : ℚ
  nozzleTempMin : ℚ
  nozzleTempMax : ℚ
  trayInfoIdx : String
  tagUid : String
  trayUuid : String
  trayWeight : Int
  dryingTemp : Int
  dryingTime : Int
deriving DecidableEq

structure AmsUnit where
  id : Nat
  temp : ℚ
  humidity : Option Int
  humidityIndex : Option Int
deriving DecidableEq

structure Ams where
  humidity : Option ℚ
  trayNow : Option String
  units : List AmsUnit
  trays : List Tray
deriving DecidableEq

/-- An external-spool record (`vt_tray` legacy shape has no `id`). -/
structure Spool where
  id : Option Int
  type : String
  color : String
  name : String
  remain : Int
  k : ℚ
  nozzleTempMin : ℚ
  nozzleTempMax : ℚ
  trayInfoIdx : String
  tagUid : String
  trayWeight : Int
deriving DecidableEq

/-- The canonical per-printer status as stored in the registry. All fields
are optional because a freshly registered printer has none of them. -/
structure Status where
  online : Option Bool
  gcodeState : Option String
  printProgress : Option ℚ
  remainingTime : Option ℚ
  currentFile : Option String
  layer : Option ℚ
  totalLayers : Option ℚ
  nozzleTemp : Option ℚ
  nozzleTargetTemp : Option ℚ
  nozzleTemp2 : Option ℚ
  nozzleTargetTemp2 : Option ℚ
  bedTemp : Option ℚ
  bedTargetTemp : Option ℚ
  chamberTemp : Option ℚ
  partFan : Option ℚ
  auxFan : Option ℚ
  chamberFan : Option ℚ
  chamberLight : Option Bool
  workLight : Option Bool
  speedLevel : Option ℚ
  speedMagnitude : Option ℚ
  ams : Option Ams
  externalSpool : Option Spool
  externalSpools : Option (List Spool)
  wifiSignal : Option String
  printType : Option String
  printError : Option ℚ
  printErrorCode : Option String
  printStage : Option ℚ
  hms : Option (List HmsEntry)
deriving DecidableEq

/-- One tray object of a feeder-unit report (`unit.tray[i]`, possibly null). -/
structure TrayReport where
  tray_type : Option String
  tray_color : Option String
  tray_sub_brands : Option String
  remain : Option Int
  k : Option ℚ
  nozzle_temp_min : Option ℚ
  nozzle_temp_max : Option ℚ
  tray_info_idx : Option String
  tag_uid : Option String
  tray_uuid : Option String
  tray_weight : Option Int
  drying_temp : Option Int
  drying_time : Option Int
deriving DecidableEq

structure UnitReport where
  humidity_raw : Option Int
  humidity : Option Int
  temp : Option ℚ
  tray : Option (List (Option TrayReport))
deriving DecidableEq

structure AmsReport where
  ams_humidity : Option ℚ
  tray_now : Option String
  ams : Option (List UnitReport)
deriving DecidableEq

/-- A `vir_slot` entry or the `vt_tray` object. -/
structure SlotReport where
  id : Option Int
  tray_type : Option String
  tray_color : Option String
  tray_sub_brands : Option String
  remain : Option Int
  k : Option ℚ
  nozzle_temp_min : Option ℚ
  nozzle_temp_max : Option ℚ
  tray_info_idx : Option String
  tag_uid : Option String
  tray_weight : Option Int
deriving DecidableEq

/-- The fields of `p = data.print` (plus the CTC module temperature
`data.print.device.ctc.info.temp` and the H2 chamber fallback
`p.info.temp`) that the handler reads. `device_extruder_info` /
`extruder_info` hold the `?.temp` value of each array entry. -/
structure Report where
  gcode_state : Option String
  print_error : Option ℚ
  mc_percent : Option ℚ
  mc_remaining_time : Option ℚ
  gcode_file : Option String
  subtask_name : Option String
  layer_num : Option ℚ
  total_layer_num : Option ℚ
  nozzle_temper : Option ℚ
  nozzle_target_temper : Option ℚ
  nozzle_temper_2 : Option ℚ
  nozzle_target_temper_2 : Option ℚ
  bed_temper : Option ℚ
  bed_target_temper : Option ℚ
  chamber_temper : Option ℚ
  cooling_fan_speed : Option ℚ
  big_fan1_speed : Option ℚ
  big_fan2_speed : Option ℚ
  lights_report : Option (List LightNode)
  spd_lvl : Option ℚ
  spd_mag : Option ℚ
  wifi_signal : Option String
  print_type : Option String
  mc_print_error_code : Option String
  mc_print_stage : Option ℚ
  hms : Option (List HmsEntry)
  ams : Option AmsReport
  vir_slot : Option (List SlotReport)
  vt_tray : Option SlotReport
  device_extruder_info : Option (List JVal)
  extruder_info : Option (List JVal)
  ctc_temp : Option JSNum
  info_temp : Option ℚ
deriving DecidableEq

/-- JS string fallback `a || b` (empty string is falsy). -/
def jsOrS (a : Option String) (b : String) : String :=
  match a with
  | some s => if s = "" then b else s
  | none => b

/-- `lights_report.find(l => l.node === n)?.mode === 'on'`. -/
def lightOn (lr : List LightNode) (node : String) : Bool :=
  match lr.find? (fun e => e.node == node) with
  | some e => e.mode == "on"
  | none => false

/-- Lines 371–393: one feeder-unit record (`unit`-level humidity handling:
exact percentage preferred, coarse index as fallback, neither for AMS Lite). -/
def parseUnit (unitIdx : Nat) (u : UnitReport) : AmsUnit :=
  let hasHumidityRaw : Bool := u.humidity_raw.isSome
  let hasHumidityIndex : Bool :=
    match u.humidity with
    | some v => decide (0 < v)
    | none => false
  { id := unitIdx,
    temp := u.temp.getD 0,
    humidity :=
      if hasHumidityRaw then u.humidity_raw
      else if hasHumidityIndex then u.humidity else none,
    humidityIndex :=
      if hasHumidityRaw then some (u.humidity.getD 0)
      else if hasHumidityIndex then u.humidity else none }

/-- Lines 394–419: a tray is kept only if it has a material type or a color
different from the empty sentinel `'00000000'`. -/
def parseTrayEntry (unitIdx trayIdx : Nat) (tray : Option TrayReport) : Option Tray :=
  match tray with
  | none => none
  | some t =>
    if jsOrS t.tray_type "" ≠ "" ∨
        (jsOrS t.tray_color "" ≠ "" ∧ jsOrS t.tray_color "" ≠ "00000000") then
      some { id := unitIdx * 4 + trayIdx, unitId := unitIdx, slot := trayIdx,
             type := jsOrS t.tray_type "",
             color := jsOrS t.tray_color "",
             name := jsOrS t.tray_sub_brands (jsOrS t.tray_type ""),
             remain := (t.remain.getD (-1)),
             k := t.k.getD 0,
             nozzleTempMin := t.nozzle_temp_min.getD 0,
             nozzleTempMax := t.nozzle_temp_max.getD 0,
             trayInfoIdx := jsOrS t.tray_info_idx "",
             tagUid := jsOrS t.tag_uid "",
             trayUuid := jsOrS t.tray_uuid "",
             trayWeight := t.tray_weight.getD 0,
             dryingTemp := t.drying_temp.getD 0,
             dryingTime := t.drying_time.getD 0 }
    else none

/-- Lines 358–422: AMS merge. Absent `p.ams` leaves `ams = null`; a present
`p.ams` merges humidity/current-tray over the previous AMS state and
rebuilds units and trays wholesale exactly when the full `p.ams.ams` array
is present. -/
def mergeAms (prevAms : Option Ams) (ar : Option AmsReport) : Option Ams :=
  match ar with
  | none => none
  | some a =>
    let pa := prevAms.getD ⟨none, none, [], []⟩
    let base : Ams :=
      { humidity := a.ams_humidity.or pa.humidity,
        trayNow := a.tray_now.or pa.trayNow,
        units := pa.units,
        trays := pa.trays }
    match a.ams with
    | none => some base
    | some unitsR =>
      some { base with
        units := unitsR.enum.map (fun iu => parseUnit iu.1 iu.2),
        trays := unitsR.enum.flatMap (fun iu =>
          match iu.2.tray with
          | none => []
          | some trays => trays.enum.filterMap (fun jt => parseTrayEntry iu.1 jt.1 jt.2)) }

/-- Lines 427–450: one `vir_slot` entry (kept under the same type/color
condition as trays; missing id defaults to 254). -/
def parseSlot (s : SlotReport) : Option Spool :=
  let vtType := jsOrS s.tray_type ""
  let vtColor := jsOrS s.tray_color ""
  if vtType ≠ "" ∨ (vtColor ≠ "" ∧ vtColor ≠ "00000000") then
    some { id := some (s.id.getD 254),
           type := vtType, color := vtColor,
           name := jsOrS s.tray_sub_brands "",
           remain := s.remain.getD (-1),
           k := s.k.getD 0,
           nozzleTempMin := s.nozzle_temp_min.getD 0,
           nozzleTempMax := s.nozzle_temp_max.getD 0,
           trayInfoIdx := jsOrS s.tray_info_idx "",
           tagUid := jsOrS s.tag_uid "",
           trayWeight := s.tray_weight.getD 0 }
  else none

/-- Lines 451–470: the legacy single `vt_tray` shape (no id field). -/
def parseVtTray (s : SlotReport) : Option Spool :=
  let vtType := jsOrS s.tray_type ""
  let vtColor := jsOrS s.tray_color ""
  if vtType ≠ "" ∨ (vtColor ≠ "" ∧ vtColor ≠ "00000000") then
    some { id := none,
           type := vtType, color := vtColor,
           name := jsOrS s.tray_sub_brands "",
           remain := s.remain.getD (-1),
           k := s.k.getD 0,
           nozzleTempMin := s.nozzle_temp_min.getD 0,
           nozzleTempMax := s.nozzle_temp_max.getD 0,
           trayInfoIdx := jsOrS s.tray_info_idx "",
           tagUid := jsOrS s.tag_uid "",
           trayWeight := s.tray_weight.getD 0 }
  else none

/-- Lines 424–470: external-spool extraction — `vir_slot` array when present
and nonempty, otherwise the legacy `vt_tray`; the first populated slot is the
backward-compatible primary. -/
def mergeSpools (r : Report) : Option Spool × List Spool :=
  match r.vir_slot with
  | some slots =>
    if slots ≠ [] then
      let spools := slots.filterMap parseSlot
      (spools.head?, spools)
    else
      match r.vt_tray with
      | some vt =>
        (match parseVtTray vt with
         | some sp => (some sp, [sp])
         | none => (none, []))
      | none => (none, [])
  | none =>
    match r.vt_tray with
    | some vt =>
      (match parseVtTray vt with
       | some sp => (some sp, [sp])
       | none => (none, []))
    | none => (none, [])

/-- Lines 310–322: the CTC pre-step — `data.print.device.ctc.info.temp`,
masked to the low 16 bits, stored into the cached chamber temperature. -/
def applyCtc (prev : Status) (r : Report) : Status :=
  match r.ctc_temp with
  | some v => { prev with chamberTemp := some ((jsAnd v.toI32 65535 : Int) : ℚ) }
  | none => prev

/-- The resolved lifecycle state `p.gcode_state ?? prevStatus.gcodeState`. -/
def resolvedState (prev : Status) (r : Report) : Option String :=
  r.gcode_state.or prev.gcodeState

/-- Lines 472–487: the stale-data fix — when the resolved state is IDLE or
FINISH, clear progress, remaining time, target temperatures and hazards in
the cached state, and clear the error fields unless an active error
(`print_error` nonzero) is reported. -/
def staleClean (prev : Status) (r : Report) : Status :=
  if resolvedState prev r = some "IDLE" ∨ resolvedState prev r = some "FINISH" then
    let pe : Status :=
      if r.print_error = none ∨ r.print_error = some 0 then
        { prev with printError := some 0, printErrorCode := some "" }
      else prev
    { pe with printProgress := some 0, remainingTime := some 0,
              nozzleTargetTemp := some 0, nozzleTargetTemp2 := some 0,
              bedTargetTemp := some 0, hms := some [] }
  else prev

/-- Lines 489–499: the printing-to-idle transition reset — when the previous
state was RUNNING/PAUSE/PREPARE and the resolved state is IDLE/FINISH, the
cached actual temperatures are reset (nozzle 2 to undefined). -/
def transitionReset (prev : Status) (r : Report) : Status :=
  if (prev.gcodeState = some "RUNNING" ∨
      prev.gcodeState = some "PAUSE" ∨ prev.gcodeState = some "PREPARE") ∧
     (resolvedState prev r = some "IDLE" ∨
      resolvedState prev r = some "FINISH") then
    { prev with nozzleTemp := some 0, nozzleTemp2 := none,
                bedTemp := some 0, chamberTemp := some 0 }
  else prev

/-- Lines 507–543: nozzle temperature selection — packed per-extruder arrays
(`p.device.extruder.info`, fallback `p.extruder.info`) override; otherwise
H2 models keep cached values and others use the legacy fields. Returns
(nozzle1 current, nozzle1 target, nozzle2 current, nozzle2 target). -/
def nozzleTemps (isH2 : Bool) (prev : Status) (r : Report) :
    ℚ × ℚ × Option ℚ × Option ℚ :=
  let nozzle1Temp : ℚ :=
    if isH2 then prev.nozzleTemp.getD 0 else (r.nozzle_temper.or prev.nozzleTemp).getD 0
  let nozzle1Target : ℚ :=
    if isH2 then prev.nozzleTargetTemp.getD 0
    else (r.nozzle_target_temper.or prev.nozzleTargetTemp).getD 0
  let nozzle2Temp : Option ℚ :=
    if isH2 then prev.nozzleTemp2 else r.nozzle_temper_2.or prev.nozzleTemp2
  let nozzle2Target : Option ℚ :=
    if isH2 then prev.nozzleTargetTemp2
    else r.nozzle_target_temper_2.or prev.nozzleTargetTemp2
  match r.device_extruder_info with
  | some ext =>
    if 1 ≤ ext.length then
      let left := decodeTemp (ext.getD 0 .undef)
      if 2 ≤ ext.length then
        let right := decodeTemp (ext.getD 1 .undef)
        ((left.current : ℚ), (left.target : ℚ),
         some (right.current : ℚ), some (right.target : ℚ))
      else
        ((left.current : ℚ), (left.target : ℚ), nozzle2Temp, nozzle2Target)
    else
      match r.extruder_info with
      | some ext2 =>
        if 2 ≤ ext2.length then
          let left := decodeTemp (ext2.getD 0 .undef)
          let right := decodeTemp (ext2.getD 1 .undef)
          ((left.current : ℚ), (left.target : ℚ),
           some (right.current : ℚ), some (right.target : ℚ))
        else (nozzle1Temp, nozzle1Target, nozzle2Temp, nozzle2Target)
      | none => (nozzle1Temp, nozzle1Target, nozzle2Temp, nozzle2Target)
  | none =>
    match r.extruder_info with
    | some ext2 =>
      if 2 ≤ ext2.length then
        let left := decodeTemp (ext2.getD 0 .undef)
        let right := decodeTemp (ext2.getD 1 .undef)
        ((left.current : ℚ), (left.target : ℚ),
         some (right.current : ℚ), some (right.target : ℚ))
      else (nozzle1Temp, nozzle1Target, nozzle2Temp, nozzle2Target)
    | none => (nozzle1Temp, nozzle1Target, nozzle2Temp, nozzle2Target)

/-- The status object of lines 548–598, built over the already-cleaned
previous state `prev`. -/
def mergeFinal (isH2 : Bool) (prev : Status) (r : Report) : Status :=
  let nt := nozzleTemps isH2 prev r
  let sp := mergeSpools r
  let chamberTempValue : Option ℚ :=
    r.chamber_temper.or (if isH2 then r.info_temp else none)
  { online := some true,
    gcodeState := some ((r.gcode_state.or prev.gcodeState).getD "IDLE"),
    printProgress := some ((r.mc_percent.or prev.printProgress).getD 0),
    remainingTime := some ((r.mc_remaining_time.or prev.remainingTime).getD 0),
    currentFile := some (jsOrS r.gcode_file (jsOrS r.subtask_name (jsOrS prev.currentFile ""))),
    layer := some ((r.layer_num.or prev.layer).getD 0),
    totalLayers := some ((r.total_layer_num.or prev.totalLayers).getD 0),
    nozzleTemp := some nt.1,
    nozzleTargetTemp := some nt.2.1,
    nozzleTemp2 := nt.2.2.1,
    nozzleTargetTemp2 := nt.2.2.2,
    bedTemp := some ((r.bed_temper.or prev.bedTemp).getD 0),
    bedTargetTemp := some ((r.bed_target_temper.or prev.bedTargetTemp).getD 0),
    chamberTemp := some ((chamberTempValue.or prev.chamberTemp).getD 0),
    partFan := r.cooling_fan_speed.or prev.partFan,
    auxFan := r.big_fan1_speed.or prev.auxFan,
    chamberFan := r.big_fan2_speed.or prev.chamberFan,
    chamberLight :=
      match r.lights_report with
      | some lr => some (lightOn lr "chamber_light")
      | none => prev.chamberLight,
    workLight :=
      match r.lights_report with
      | some lr => some (lightOn lr "chamber_light" || lightOn lr "chamber_light2"
          || lightOn lr "work_light")
      | none => prev.workLight,
    speedLevel := r.spd_lvl.or prev.speedLevel,
    speedMagnitude := r.spd_mag.or prev.speedMagnitude,
    ams := (mergeAms prev.ams r.ams).or prev.ams,
    externalSpool := sp.1.or prev.externalSpool,
    externalSpools := if sp.2.length > 0 then some sp.2 else prev.externalSpools,
    wifiSignal := r.wifi_signal.or prev.wifiSignal,
    printType := r.print_type.or prev.printType,
    printError := some ((r.print_error.or prev.printError).getD 0),
    printErrorCode := some ((r.mc_print_error_code.or prev.printErrorCode).getD ""),
    printStage := r.mc_print_stage.or prev.printStage,
    hms := some (match r.hms with
      | some l => l
      | none => prev.hms.getD []) }

/-- The complete merge performed by the message handler for a report with a
`print` section, in source order (CTC pre-step, stale-data fix, transition
reset, then the status object of lines 548–598). -/
def mergeStatus (isH2 : Bool) (prev0 : Status) (r : Report) : Status :=
  mergeFinal isH2 (transitionReset (staleClean (applyCtc prev0 r) r) r) r

/-- The all-absent status (a freshly registered printer). -/
def emptyStatus : Status :=
  ⟨none, none, none, none, none, none, none, none, none, none, none, none,
   none, none, none, none, none, none, none, none, none, none, none, none,
   none, none, none, none, none, none⟩

/-- The empty report (a `print` section with none of the read fields). -/
def emptyReport : Report :=
  ⟨none, none, none, none, none, none, none, none, none, none, none, none,
   none, none, none, none, none, none, none, none, none, none, none, none,
   none, none, none, none, none, none, none, none, none⟩

/-! ### Stage facts -/

theorem applyCtc_gcodeState (p : Status) (r : Report) :
    (applyCtc p r).gcodeState = p.gcodeState := by
  unfold applyCtc
  cases r.ctc_temp <;> rfl

theorem resolvedState_applyCtc (p : Status) (r : Report) :
    resolvedState (applyCtc p r) r = resolvedState p r := by
  unfold resolvedState
  rw [applyCtc_gcodeState]

theorem applyCtc_ctc_none (p : Status) (r : Report) (h : r.ctc_temp = none) :
    applyCtc p r = p := by
  unfold applyCtc
  rw [h]

theorem staleClean_gcodeState (p : Status) (r : Report) :
    (staleClean p r).gcodeState = p.gcodeState := by
  unfold staleClean
  split
  · split <;> rfl
  · rfl

theorem staleClean_actuals (p : Status) (r : Report) :
    (staleClean p r).nozzleTemp = p.nozzleTemp ∧
    (staleClean p r).nozzleTemp2 = p.nozzleTemp2 ∧
    (staleClean p r).bedTemp = p.bedTemp ∧
    (staleClean p r).chamberTemp = p.chamberTemp := by
  unfold staleClean
  split
  · split <;> exact ⟨rfl, rfl, rfl, rfl⟩
  · exact ⟨rfl, rfl, rfl, rfl⟩

theorem staleClean_stale (p : Status) (r : Report)
    (h : resolvedState p r = some "IDLE" ∨ resolvedState p r = some "FINISH") :
    (staleClean p r).printProgress = some 0 ∧
    (staleClean p r).remainingTime = some 0 ∧
    (staleClean p r).nozzleTargetTemp = some 0 ∧
    (staleClean p r).nozzleTargetTemp2 = some 0 ∧
    (staleClean p r).bedTargetTemp = some 0 ∧
    (staleClean p r).hms = some [] := by
  unfold staleClean
  rw [if_pos h]
  exact ⟨rfl, rfl, rfl, rfl, rfl, rfl⟩

theorem staleClean_error_cleared (p : Status) (r : Report)
    (h : resolvedState p r = some "IDLE" ∨ resolvedState p r = some "FINISH")
    (he : r.print_error = none ∨ r.print_error = some 0) :
    (staleClean p r).printError = some 0 ∧
    (staleClean p r).printErrorCode = some "" := by
  unfold staleClean
  rw [if_pos h, if_pos he]
  exact ⟨rfl, rfl⟩

theorem staleClean_error_kept (p : Status) (r : Report)
    (he : ¬ (r.print_error = none ∨ r.print_error = some 0)) :
    (staleClean p r).printError = p.printError ∧
    (staleClean p r).printErrorCode = p.printErrorCode := by
  unfold staleClean
  simp only [he, if_false, ite_false]
  split <;> exact ⟨rfl, rfl⟩

theorem transitionReset_keeps (q : Status) (r : Report) :
    (transitionReset q r).gcodeState = q.gcodeState ∧
    (transitionReset q r).printProgress = q.printProgress ∧
    (transitionReset q r).remainingTime = q.remainingTime ∧
    (transitionReset q r).nozzleTargetTemp = q.nozzleTargetTemp ∧
    (transitionReset q r).nozzleTargetTemp2 = q.nozzleTargetTemp2 ∧
    (transitionReset q r).bedTargetTemp = q.bedTargetTemp ∧
    (transitionReset q r).hms = q.hms ∧
    (transitionReset q r).printError = q.printError ∧
    (transitionReset q r).printErrorCode = q.printErrorCode := by
  unfold transitionReset
  split <;> exact ⟨rfl, rfl, rfl, rfl, rfl, rfl, rfl, rfl, rfl⟩

theorem transitionReset_fires (q : Status) (r : Report)
    (hwas : q.gcodeState = some "RUNNING" ∨ q.gcodeState = some "PAUSE" ∨
      q.gcodeState = some "PREPARE")
    (hnow : resolvedState q r = some "IDLE" ∨ resolvedState q r = some "FINISH") :
    (transitionReset q r).nozzleTemp = some 0 ∧
    (transitionReset q r).nozzleTemp2 = none ∧
    (transitionReset q r).bedTemp = some 0 ∧
    (transitionReset q r).chamberTemp = some 0 := by
  unfold transitionReset
  rw [if_pos ⟨hwas, hnow⟩]
  exact ⟨rfl, rfl, rfl, rfl⟩

/-! ### C3 — stale-data cleanup on idle/finished -/

def c3Prev : Status :=
  { emptyStatus with gcodeState := some "RUNNING", printProgress := some 50 }

def c3Report : Report :=
  { emptyReport with gcode_state := some "IDLE", mc_percent := some 70 }

/-- `C3` counterexample: a report that resolves the lifecycle state to IDLE
with no active error but that also carries `mc_percent: 70` produces a
snapshot with progress 70, not 0 — report-carried values override the
stale-data zeroing, so the claim as stated is false. -/
theorem merge_idle_progress_counterexample :
    resolvedState c3Prev c3Report = some "IDLE" ∧
    c3Report.print_error = none ∧
    (mergeStatus false c3Prev c3Report).printProgress = some 70 ∧
    (mergeStatus false c3Prev c3Report).printProgress ≠ some 0 := by
  refine ⟨rfl, rfl, by decide, by decide⟩

/-- `C3` (amended): when the resolved lifecycle state is idle/finished, no
active error is present, and the report does not itself carry the progress,
remaining-time, target-temperature, packed-extruder or hazard fields, the
merged snapshot has progress 0, remaining time 0, nozzle-1/nozzle-2/bed
target temperatures 0, an empty hazard list, and cleared error fields.
When an active error (`print_error` ≠ 0) is present instead, the error flag
is taken from the report and the previous error code is preserved when the
report carries none. -/
theorem merge_idle_zeroes (isH2 : Bool) (prev : Status) (r r' : Report) (e : ℚ)
    (hstale : resolvedState prev r = some "IDLE" ∨ resolvedState prev r = some "FINISH")
    (herr : r.print_error = none ∨ r.print_error = some 0)
    (h1 : r.mc_percent = none) (h2 : r.mc_remaining_time = none)
    (h3 : r.nozzle_target_temper = none) (h4 : r.nozzle_target_temper_2 = none)
    (h5 : r.bed_target_temper = none) (h6 : r.device_extruder_info = none)
    (h7 : r.extruder_info = none) (h8 : r.hms = none)
    (h9 : r.mc_print_error_code = none)
    (hstale' : resolvedState prev r' = some "IDLE" ∨ resolvedState prev r' = some "FINISH")
    (he : r'.print_error = some e) (hne : e ≠ 0)
    (hcode : r'.mc_print_error_code = none) :
    (mergeStatus isH2 prev r).printProgress = some 0 ∧
    (mergeStatus isH2 prev r).remainingTime = some 0 ∧
    (mergeStatus isH2 prev r).nozzleTargetTemp = some 0 ∧
    (mergeStatus isH2 prev r).nozzleTargetTemp2 = some 0 ∧
    (mergeStatus isH2 prev r).bedTargetTemp = some 0 ∧
    (mergeStatus isH2 prev r).hms = some [] ∧
    (mergeStatus isH2 prev r).printError = some 0 ∧
    (mergeStatus isH2 prev r).printErrorCode = some "" ∧
    (mergeStatus isH2 prev r').printError = some e ∧
    (mergeStatus isH2 prev r').printErrorCode = some (prev.printErrorCode.getD "") := by
  have hres : resolvedState (applyCtc prev r) r = some "IDLE" ∨
      resolvedState (applyCtc prev r) r = some "FINISH" := by
    rw [resolvedState_applyCtc]; exact hstale
  have hsc := staleClean_stale (applyCtc prev r) r hres
  have hec := staleClean_error_cleared (applyCtc prev r) r hres herr
  have htk := transitionReset_keeps (staleClean (applyCtc prev r) r) r
  refine ⟨?_, ?_, ?_, ?_, ?_, ?_, ?_, ?_, ?_, ?_⟩
  · show some ((r.mc_percent.or
        (transitionReset (staleClean (applyCtc prev r) r) r).printProgress).getD 0) = some 0
    rw [h1, Option.none_or, htk.2.1, hsc.1]
    rfl
  · show some ((r.mc_remaining_time.or
        (transitionReset (staleClean (applyCtc prev r) r) r).remainingTime).getD 0) = some 0
    rw [h2, Option.none_or, htk.2.2.1, hsc.2.1]
    rfl
  · show some (nozzleTemps isH2 (transitionReset (staleClean (applyCtc prev r) r) r) r).2.1 =
      some 0
    unfold nozzleTemps
    rw [h6, h7, htk.2.2.2.1, hsc.2.2.1, h3]
    cases isH2 <;> rfl
  · show (nozzleTemps isH2 (transitionReset (staleClean (applyCtc prev r) r) r) r).2.2.2 =
      some 0
    unfold nozzleTemps
    rw [h6, h7, htk.2.2.2.2.1, hsc.2.2.2.1, h4]
    cases isH2 <;> rfl
  · show some ((r.bed_target_temper.or
        (transitionReset (staleClean (applyCtc prev r) r) r).bedTargetTemp).getD 0) = some 0
    rw [h5, Option.none_or, htk.2.2.2.2.2.1, hsc.2.2.2.2.1]
    rfl
  · show some (match r.hms with
      | some l => l
      | none => (transitionReset (staleClean (applyCtc prev r) r) r).hms.getD []) =
        some ([] : List HmsEntry)
    rw [h8, htk.2.2.2.2.2.2.1, hsc.2.2.2.2.2]
    rfl
  · show some ((r.print_error.or
        (transitionReset (staleClean (applyCtc prev r) r) r).printError).getD 0) = some 0
    rcases herr with h | h <;>
      rw [h, htk.2.2.2.2.2.2.2.1, hec.1] <;> rfl
  · show some ((r.mc_print_error_code.or
        (transitionReset (staleClean (applyCtc prev r) r) r).printErrorCode).getD "") = some ""
    rw [h9, Option.none_or, htk.2.2.2.2.2.2.2.2, hec.2]
    rfl
  · show some ((r'.print_error.or
        (transitionReset (staleClean (applyCtc prev r') r') r').printError).getD 0) = some e
    rw [he, Option.or_some]
    rfl
  · have hek := staleClean_error_kept (applyCtc prev r') r' (by
      intro hcon
      rcases hcon with h | h
      · rw [he] at h; cases h
      · rw [he] at h
        injection h with h
        exact hne h)
    have hac : (applyCtc prev r').printErrorCode = prev.printErrorCode := by
      unfold applyCtc
      cases r'.ctc_temp <;> rfl
    show some ((r'.mc_print_error_code.or
        (transitionReset (staleClean (applyCtc prev r') r') r').printErrorCode).getD "") =
      some (prev.printErrorCode.getD "")
    rw [hcode, Option.none_or, (transitionReset_keeps _ r').2.2.2.2.2.2.2.2, hek.2, hac]

def c3WPrev : Status := { emptyStatus with printErrorCode := some "HMS_0500" }

def c3WReport : Report := { emptyReport with gcode_state := some "IDLE" }

def c3WReportErr : Report :=
  { emptyReport with gcode_state := some "IDLE", print_error := some 5 }

/-- Witness for `merge_idle_zeroes`: a bare IDLE report zeroes everything;
an IDLE report with `print_error: 5` keeps the flag and the cached code. -/
theorem merge_idle_zeroes_witness :
    (mergeStatus false c3WPrev c3WReport).printProgress = some 0 ∧
    (mergeStatus false c3WPrev c3WReport).remainingTime = some 0 ∧
    (mergeStatus false c3WPrev c3WReport).nozzleTargetTemp = some 0 ∧
    (mergeStatus false c3WPrev c3WReport).nozzleTargetTemp2 = some 0 ∧
    (mergeStatus false c3WPrev c3WReport).bedTargetTemp = some 0 ∧
    (mergeStatus false c3WPrev c3WReport).hms = some [] ∧
    (mergeStatus false c3WPrev c3WReport).printError = some 0 ∧
    (mergeStatus false c3WPrev c3WReport).printErrorCode = some "" ∧
    (mergeStatus false c3WPrev c3WReportErr).printError = some 5 ∧
    (mergeStatus false c3WPrev c3WReportErr).printErrorCode =
      some (c3WPrev.printErrorCode.getD "") :=
  merge_idle_zeroes false c3WPrev c3WReport c3WReportErr 5
    (Or.inl rfl) (Or.inl rfl) rfl rfl rfl rfl rfl rfl rfl rfl rfl
    (Or.inl rfl) rfl (by norm_num) rfl

/-! ### C4 — printing-to-idle transition reset of actual temperatures -/

def c4Prev : Status :=
  { emptyStatus with gcodeState := some "RUNNING", nozzleTemp := some 230 }

def c4Report : Report :=
  { emptyReport with gcode_state := some "IDLE", nozzle_temper := some 230 }

/-- `C4` counterexample: on a RUNNING→IDLE transition, a report that itself
carries `nozzle_temper: 230` leaves the snapshot's actual nozzle temperature
at 230 — the transition reset only clears the cached value, and
report-carried actual temperatures override it, so the claim as stated is
false. -/
theorem merge_transition_counterexample :
    c4Prev.gcodeState = some "RUNNING" ∧
    resolvedState c4Prev c4Report = some "IDLE" ∧
    (mergeStatus false c4Prev c4Report).nozzleTemp = some 230 ∧
    (mergeStatus false c4Prev c4Report).nozzleTemp ≠ some 0 := by
  refine ⟨rfl, rfl, by decide, by decide⟩

/-- `C4` (amended): when the previous lifecycle state is
RUNNING/PAUSE/PREPARE, the resolved state is IDLE/FINISH, and the report does
not itself carry actual-temperature data (legacy fields, packed extruder
arrays, chamber fields, or the CTC module), the merged snapshot has actual
nozzle-1, bed, and chamber temperatures 0 and the nozzle-2 actual temperature
cleared to undefined. -/
theorem merge_transition_zeroes_actuals (isH2 : Bool) (prev : Status) (r : Report)
    (hwas : prev.gcodeState = some "RUNNING" ∨ prev.gcodeState = some "PAUSE" ∨
      prev.gcodeState = some "PREPARE")
    (hnow : resolvedState prev r = some "IDLE" ∨ resolvedState prev r = some "FINISH")
    (h1 : r.nozzle_temper = none) (h2 : r.nozzle_temper_2 = none)
    (h3 : r.bed_temper = none) (h4 : r.chamber_temper = none)
    (h5 : r.device_extruder_info = none) (h6 : r.extruder_info = none)
    (h7 : r.ctc_temp = none) (h8 : r.info_temp = none) :
    (mergeStatus isH2 prev r).nozzleTemp = some 0 ∧
    (mergeStatus isH2 prev r).nozzleTemp2 = none ∧
    (mergeStatus isH2 prev r).bedTemp = some 0 ∧
    (mergeStatus isH2 prev r).chamberTemp = some 0 := by
  have hac : applyCtc prev r = prev := applyCtc_ctc_none prev r h7
  have hwas' : (staleClean prev r).gcodeState = some "RUNNING" ∨
      (staleClean prev r).gcodeState = some "PAUSE" ∨
      (staleClean prev r).gcodeState = some "PREPARE" := by
    rw [staleClean_gcodeState]; exact hwas
  have hnow' : resolvedState (staleClean prev r) r = some "IDLE" ∨
      resolvedState (staleClean prev r) r = some "FINISH" := by
    unfold resolvedState
    rw [staleClean_gcodeState]
    exact hnow
  have htr := transitionReset_fires (staleClean prev r) r hwas' hnow'
  refine ⟨?_, ?_, ?_, ?_⟩
  · show some (nozzleTemps isH2 (transitionReset (staleClean (applyCtc prev r) r) r) r).1 =
      some 0
    rw [hac]
    unfold nozzleTemps
    rw [h5, h6, htr.1, h1]
    cases isH2 <;> rfl
  · show (nozzleTemps isH2 (transitionReset (staleClean (applyCtc prev r) r) r) r).2.2.1 =
      none
    rw [hac]
    unfold nozzleTemps
    rw [h5, h6, htr.2.1, h2]
    cases isH2 <;> rfl
  · show some ((r.bed_temper.or
        (transitionReset (staleClean (applyCtc prev r) r) r).bedTemp).getD 0) = some 0
    rw [hac, h3, Option.none_or, htr.2.2.1]
    rfl
  · show some (((r.chamber_temper.or (if isH2 then r.info_temp else none)).or
        (transitionReset (staleClean (applyCtc prev r) r) r).chamberTemp).getD 0) = some 0
    rw [hac, h4, h8, htr.2.2.2]
    cases isH2 <;> rfl

def c4WPrev : Status :=
  { emptyStatus with
      gcodeState := some "RUNNING"
      nozzleTemp := some 230
      nozzleTemp2 := some 200
      bedTemp := some 90
      chamberTemp := some 45 }

def c4WReport : Report := { emptyReport with gcode_state := some "FINISH" }

/-- Witness for `merge_transition_zeroes_actuals`: a hot RUNNING snapshot fed
a bare FINISH report cools to zero. -/
theorem merge_transition_zeroes_actuals_witness :
    (mergeStatus false c4WPrev c4WReport).nozzleTemp = some 0 ∧
    (mergeStatus false c4WPrev c4WReport).nozzleTemp2 = none ∧
    (mergeStatus false c4WPrev c4WReport).bedTemp = some 0 ∧
    (mergeStatus false c4WPrev c4WReport).chamberTemp = some 0 :=
  merge_transition_zeroes_actuals false c4WPrev c4WReport
    (Or.inl rfl) (Or.inr rfl) rfl rfl rfl rfl rfl rfl rfl rfl

/-! ### C6 — idempotence of the merge -/

theorem or_or (a b : Option α) : a.or (a.or b) = a.or b := by
  cases a <;> simp

theorem or_getD_idem (a b : Option α) (d : α) :
    (a.or (some ((a.or b).getD d))).getD d = (a.or b).getD d := by
  cases a <;> simp

theorem jsOrS_some_empty (v : String) : jsOrS (some v) "" = v := by
  unfold jsOrS
  split <;> simp_all

theorem jsOrS_absorb (a b : Option String) (w : String) :
    jsOrS a (jsOrS b (jsOrS a (jsOrS b w))) = jsOrS a (jsOrS b w) := by
  unfold jsOrS
  cases a <;> cases b <;> simp <;> split_ifs <;> simp_all

/-- The transition reset does nothing when the resolved state equals the
previous state (the state cannot be both printing and idle). -/
theorem transitionReset_noop (q : Status) (r : Report)
    (hq : resolvedState q r = q.gcodeState) :
    transitionReset q r = q := by
  unfold transitionReset
  rw [if_neg]
  rintro ⟨hwas, hnow⟩
  rw [hq] at hnow
  rcases hwas with h1 | h1 | h1 <;> rcases hnow with h2 | h2 <;>
    rw [h1] at h2 <;> simp at h2

theorem applyCtc_keeps (p : Status) (r : Report) :
    (applyCtc p r).online = p.online ∧
    (applyCtc p r).printProgress = p.printProgress ∧
    (applyCtc p r).remainingTime = p.remainingTime ∧
    (applyCtc p r).currentFile = p.currentFile ∧
    (applyCtc p r).layer = p.layer ∧
    (applyCtc p r).totalLayers = p.totalLayers ∧
    (applyCtc p r).nozzleTemp = p.nozzleTemp ∧
    (applyCtc p r).nozzleTargetTemp = p.nozzleTargetTemp ∧
    (applyCtc p r).nozzleTemp2 = p.nozzleTemp2 ∧
    (applyCtc p r).nozzleTargetTemp2 = p.nozzleTargetTemp2 ∧
    (applyCtc p r).bedTemp = p.bedTemp ∧
    (applyCtc p r).bedTargetTemp = p.bedTargetTemp ∧
    (applyCtc p r).partFan = p.partFan ∧
    (applyCtc p r).auxFan = p.auxFan ∧
    (applyCtc p r).chamberFan = p.chamberFan ∧
    (applyCtc p r).chamberLight = p.chamberLight ∧
    (applyCtc p r).workLight = p.workLight ∧
    (applyCtc p r).speedLevel = p.speedLevel ∧
    (applyCtc p r).speedMagnitude = p.speedMagnitude ∧
    (applyCtc p r).ams = p.ams ∧
    (applyCtc p r).externalSpool = p.externalSpool ∧
    (applyCtc p r).externalSpools = p.externalSpools ∧
    (applyCtc p r).wifiSignal = p.wifiSignal ∧
    (applyCtc p r).printType = p.printType ∧
    (applyCtc p r).printError = p.printError ∧
    (applyCtc p r).printErrorCode = p.printErrorCode ∧
    (applyCtc p r).printStage = p.printStage ∧
    (applyCtc p r).hms = p.hms := by
  unfold applyCtc
  cases r.ctc_temp <;>
    exact ⟨rfl, rfl, rfl, rfl, rfl, rfl, rfl, rfl, rfl, rfl, rfl, rfl, rfl, rfl,
      rfl, rfl, rfl, rfl, rfl, rfl, rfl, rfl, rfl, rfl, rfl, rfl, rfl, rfl⟩

/-- The CTC pre-step's effect on the cached chamber temperature. -/
theorem applyCtc_chamberTemp (p : Status) (r : Report) :
    (applyCtc p r).chamberTemp =
      match r.ctc_temp with
      | some v => some ((jsAnd v.toI32 65535 : Int) : ℚ)
      | none => p.chamberTemp := by
  unfold applyCtc
  cases r.ctc_temp <;> rfl

theorem staleClean_keeps (p : Status) (r : Report) :
    (staleClean p r).online = p.online ∧
    (staleClean p r).currentFile = p.currentFile ∧
    (staleClean p r).layer = p.layer ∧
    (staleClean p r).totalLayers = p.totalLayers ∧
    (staleClean p r).partFan = p.partFan ∧
    (staleClean p r).auxFan = p.auxFan ∧
    (staleClean p r).chamberFan = p.chamberFan ∧
    (staleClean p r).chamberLight = p.chamberLight ∧
    (staleClean p r).workLight = p.workLight ∧
    (staleClean p r).speedLevel = p.speedLevel ∧
    (staleClean p r).speedMagnitude = p.speedMagnitude ∧
    (staleClean p r).ams = p.ams ∧
    (staleClean p r).externalSpool = p.externalSpool ∧
    (staleClean p r).externalSpools = p.externalSpools ∧
    (staleClean p r).wifiSignal = p.wifiSignal ∧
    (staleClean p r).printType = p.printType ∧
    (staleClean p r).printStage = p.printStage := by
  unfold staleClean
  split <;>
    first
      | exact ⟨rfl, rfl, rfl, rfl, rfl, rfl, rfl, rfl, rfl, rfl, rfl, rfl, rfl,
          rfl, rfl, rfl, rfl⟩
      | (split <;>
          exact ⟨rfl, rfl, rfl, rfl, rfl, rfl, rfl, rfl, rfl, rfl, rfl, rfl, rfl,
            rfl, rfl, rfl, rfl⟩)

theorem staleClean_printProgress (p : Status) (r : Report) :
    (staleClean p r).printProgress =
      if resolvedState p r = some "IDLE" ∨ resolvedState p r = some "FINISH"
      then some 0 else p.printProgress := by
  unfold staleClean
  split <;> rfl

theorem staleClean_remainingTime (p : Status) (r : Report) :
    (staleClean p r).remainingTime =
      if resolvedState p r = some "IDLE" ∨ resolvedState p r = some "FINISH"
      then some 0 else p.remainingTime := by
  unfold staleClean
  split <;> rfl

theorem staleClean_nozzleTargetTemp (p : Status) (r : Report) :
    (staleClean p r).nozzleTargetTemp =
      if resolvedState p r = some "IDLE" ∨ resolvedState p r = some "FINISH"
      then some 0 else p.nozzleTargetTemp := by
  unfold staleClean
  split <;> rfl

theorem staleClean_nozzleTargetTemp2 (p : Status) (r : Report) :
    (staleClean p r).nozzleTargetTemp2 =
      if resolvedState p r = some "IDLE" ∨ resolvedState p r = some "FINISH"
      then some 0 else p.nozzleTargetTemp2 := by
  unfold staleClean
  split <;> rfl

theorem staleClean_bedTargetTemp (p : Status) (r : Report) :
    (staleClean p r).bedTargetTemp =
      if resolvedState p r = some "IDLE" ∨ resolvedState p r = some "FINISH"
      then some 0 else p.bedTargetTemp := by
  unfold staleClean
  split <;> rfl

theorem staleClean_hms (p : Status) (r : Report) :
    (staleClean p r).hms =
      if resolvedState p r = some "IDLE" ∨ resolvedState p r = some "FINISH"
      then some [] else p.hms := by
  unfold staleClean
  split <;> rfl

theorem staleClean_printError (p : Status) (r : Report) :
    (staleClean p r).printError =
      if resolvedState p r = some "IDLE" ∨ resolvedState p r = some "FINISH"
      then (if r.print_error = none ∨ r.print_error = some 0
            then some 0 else p.printError)
      else p.printError := by
  unfold staleClean
  split <;> first | rfl | (split <;> rfl)

theorem staleClean_printErrorCode (p : Status) (r : Report) :
    (staleClean p r).printErrorCode =
      if resolvedState p r = some "IDLE" ∨ resolvedState p r = some "FINISH"
      then (if r.print_error = none ∨ r.print_error = some 0
            then some "" else p.printErrorCode)
      else p.printErrorCode := by
  unfold staleClean
  split <;> first | rfl | (split <;> rfl)

/-- The nozzle-temperature selection gives the same result when re-run over a
state whose nozzle fields either kept their previous value or took the
result of the first run. -/
theorem nozzleTemps_stable (isH2 : Bool) (p q : Status) (r : Report)
    (e1 : q.nozzleTemp = p.nozzleTemp ∨
      q.nozzleTemp = some (nozzleTemps isH2 p r).1)
    (e2 : q.nozzleTargetTemp = p.nozzleTargetTemp ∨
      q.nozzleTargetTemp = some (nozzleTemps isH2 p r).2.1)
    (e3 : q.nozzleTemp2 = p.nozzleTemp2 ∨
      q.nozzleTemp2 = (nozzleTemps isH2 p r).2.2.1)
    (e4 : q.nozzleTargetTemp2 = p.nozzleTargetTemp2 ∨
      q.nozzleTargetTemp2 = (nozzleTemps isH2 p r).2.2.2) :
    nozzleTemps isH2 q r = nozzleTemps isH2 p r := by
  unfold nozzleTemps at e1 e2 e3 e4 ⊢
  cases hdev : r.device_extruder_info with
  | some ext =>
    simp only [hdev] at e1 e2 e3 e4 ⊢
    by_cases hl1 : 1 ≤ ext.length
    · simp only [if_pos hl1] at e1 e2 e3 e4 ⊢
      by_cases hl2 : 2 ≤ ext.length
      · simp only [if_pos hl2]
      · simp only [if_neg hl2] at e1 e2 e3 e4 ⊢
        simp only [Prod.mk.injEq, true_and]
        constructor
        · rcases e3 with e3 | e3 <;> rw [e3] <;> cases isH2 <;>
            simp_all [or_or]
        · rcases e4 with e4 | e4 <;> rw [e4] <;> cases isH2 <;>
            simp_all [or_or]
    · simp only [if_neg hl1] at e1 e2 e3 e4 ⊢
      cases hex : r.extruder_info with
      | some ext2 =>
        simp only [hex] at e1 e2 e3 e4 ⊢
        by_cases hl3 : 2 ≤ ext2.length
        · simp only [if_pos hl3]
        · simp only [if_neg hl3] at e1 e2 e3 e4 ⊢
          simp only [Prod.mk.injEq]
          refine ⟨?_, ?_, ?_, ?_⟩
          · rcases e1 with e1 | e1 <;> rw [e1] <;> cases isH2 <;>
              simp_all [or_getD_idem]
          · rcases e2 with e2 | e2 <;> rw [e2] <;> cases isH2 <;>
              simp_all [or_getD_idem]
          · rcases e3 with e3 | e3 <;> rw [e3] <;> cases isH2 <;>
              simp_all [or_or]
          · rcases e4 with e4 | e4 <;> rw [e4] <;> cases isH2 <;>
              simp_all [or_or]
      | none =>
        simp only [hex] at e1 e2 e3 e4 ⊢
        simp only [Prod.mk.injEq]
        refine ⟨?_, ?_, ?_, ?_⟩
        · rcases e1 with e1 | e1 <;> rw [e1] <;> cases isH2 <;>
            simp_all [or_getD_idem]
        · rcases e2 with e2 | e2 <;> rw [e2] <;> cases isH2 <;>
            simp_all [or_getD_idem]
        · rcases e3 with e3 | e3 <;> rw [e3] <;> cases isH2 <;>
            simp_all [or_or]
        · rcases e4 with e4 | e4 <;> rw [e4] <;> cases isH2 <;>
            simp_all [or_or]
  | none =>
    simp only [hdev] at e1 e2 e3 e4 ⊢
    cases hex : r.extruder_info with
    | some ext2 =>
      simp only [hex] at e1 e2 e3 e4 ⊢
      by_cases hl3 : 2 ≤ ext2.length
      · simp only [if_pos hl3]
      · simp only [if_neg hl3] at e1 e2 e3 e4 ⊢
        simp only [Prod.mk.injEq]
        refine ⟨?_, ?_, ?_, ?_⟩
        · rcases e1 with e1 | e1 <;> rw [e1] <;> cases isH2 <;>
            simp_all [or_getD_idem]
        · rcases e2 with e2 | e2 <;> rw [e2] <;> cases isH2 <;>
            simp_all [or_getD_idem]
        · rcases e3 with e3 | e3 <;> rw [e3] <;> cases isH2 <;>
            simp_all [or_or]
        · rcases e4 with e4 | e4 <;> rw [e4] <;> cases isH2 <;>
            simp_all [or_or]
    | none =>
      simp only [hex] at e1 e2 e3 e4 ⊢
      simp only [Prod.mk.injEq]
      refine ⟨?_, ?_, ?_, ?_⟩
      · rcases e1 with e1 | e1 <;> rw [e1] <;> cases isH2 <;>
          simp_all [or_getD_idem]
      · rcases e2 with e2 | e2 <;> rw [e2] <;> cases isH2 <;>
          simp_all [or_getD_idem]
      · rcases e3 with e3 | e3 <;> rw [e3] <;> cases isH2 <;>
          simp_all [or_or]
      · rcases e4 with e4 | e4 <;> rw [e4] <;> cases isH2 <;>
          simp_all [or_or]

/-- Re-merging the AMS report over the result of a first merge changes
nothing. -/
theorem mergeAms_idem (p : Option Ams) (a : AmsReport) :
    mergeAms ((mergeAms p (some a)).or p) (some a) = mergeAms p (some a) := by
  unfold mergeAms
  cases ha : a.ams with
  | none =>
    simp only [ha, Option.or_some, Option.getD_some]
    rw [or_or, or_or]
  | some u =>
    simp only [ha, Option.or_some, Option.getD_some]
    rw [or_or, or_or]

attribute [ext] Status

/-- Core of the idempotence argument: re-running the final merge over the
cleaned-up version of its own output reproduces the output, provided the
lifecycle state is stable. -/
theorem mergeFinal_idem_aux (isH2 : Bool) (s A C : Status) (r : Report)
    (hA : A = staleClean (applyCtc s r) r)
    (hC : C = staleClean (applyCtc (mergeFinal isH2 A r) r) r)
    (hBg : (mergeFinal isH2 A r).gcodeState = s.gcodeState) :
    mergeFinal isH2 C r = mergeFinal isH2 A r := by
  obtain ⟨kB1, kB2, kB3, kB4, kB5, kB6, kB7, kB8, kB9, kB10, kB11, kB12, kB13,
    kB14, kB15, kB16, kB17, kB18, kB19, kB20, kB21, kB22, kB23, kB24, kB25,
    kB26, kB27, kB28⟩ := applyCtc_keeps (mergeFinal isH2 A r) r
  obtain ⟨kA1, kA2, kA3, kA4, kA5, kA6, kA7, kA8, kA9, kA10, kA11, kA12, kA13,
    kA14, kA15, kA16, kA17, kA18, kA19, kA20, kA21, kA22, kA23, kA24, kA25,
    kA26, kA27, kA28⟩ := applyCtc_keeps s r
  obtain ⟨sB1, sB2, sB3, sB4, sB5, sB6, sB7, sB8, sB9, sB10, sB11, sB12, sB13,
    sB14, sB15, sB16, sB17⟩ := staleClean_keeps (applyCtc (mergeFinal isH2 A r) r) r
  obtain ⟨aB1, aB2, aB3, aB4⟩ := staleClean_actuals (applyCtc (mergeFinal isH2 A r) r) r
  obtain ⟨aA1, aA2, aA3, aA4⟩ := staleClean_actuals (applyCtc s r) r
  have hrB : resolvedState (applyCtc (mergeFinal isH2 A r) r) r = resolvedState s r := by
    rw [resolvedState_applyCtc]
    unfold resolvedState
    rw [hBg]
  have hrA : resolvedState (applyCtc s r) r = resolvedState s r := resolvedState_applyCtc s r
  have hgA : A.gcodeState = s.gcodeState := by
    rw [hA, staleClean_gcodeState, applyCtc_gcodeState]
  have hgC : C.gcodeState = s.gcodeState := by
    rw [hC, staleClean_gcodeState, applyCtc_gcodeState, hBg]
  have c_pp : C.printProgress =
      if resolvedState s r = some "IDLE" ∨ resolvedState s r = some "FINISH"
      then some 0 else (mergeFinal isH2 A r).printProgress := by
    rw [hC, staleClean_printProgress, hrB, kB2]
  have a_pp : A.printProgress =
      if resolvedState s r = some "IDLE" ∨ resolvedState s r = some "FINISH"
      then some 0 else s.printProgress := by
    rw [hA, staleClean_printProgress, hrA, kA2]
  have c_rt : C.remainingTime =
      if resolvedState s r = some "IDLE" ∨ resolvedState s r = some "FINISH"
      then some 0 else (mergeFinal isH2 A r).remainingTime := by
    rw [hC, staleClean_remainingTime, hrB, kB3]
  have a_rt : A.remainingTime =
      if resolvedState s r = some "IDLE" ∨ resolvedState s r = some "FINISH"
      then some 0 else s.remainingTime := by
    rw [hA, staleClean_remainingTime, hrA, kA3]
  have c_ntt : C.nozzleTargetTemp =
      if resolvedState s r = some "IDLE" ∨ resolvedState s r = some "FINISH"
      then some 0 else (mergeFinal isH2 A r).nozzleTargetTemp := by
    rw [hC, staleClean_nozzleTargetTemp, hrB, kB8]
  have a_ntt : A.nozzleTargetTemp =
      if resolvedState s r = some "IDLE" ∨ resolvedState s r = some "FINISH"
      then some 0 else s.nozzleTargetTemp := by
    rw [hA, staleClean_nozzleTargetTemp, hrA, kA8]
  have c_ntt2 : C.nozzleTargetTemp2 =
      if resolvedState s r = some "IDLE" ∨ resolvedState s r = some "FINISH"
      then some 0 else (mergeFinal isH2 A r).nozzleTargetTemp2 := by
    rw [hC, staleClean_nozzleTargetTemp2, hrB, kB10]
  have a_ntt2 : A.nozzleTargetTemp2 =
      if resolvedState s r = some "IDLE" ∨ resolvedState s r = some "FINISH"
      then some 0 else s.nozzleTargetTemp2 := by
    rw [hA, staleClean_nozzleTargetTemp2, hrA, kA10]
  have c_btt : C.bedTargetTemp =
      if resolvedState s r = some "IDLE" ∨ resolvedState s r = some "FINISH"
      then some 0 else (mergeFinal isH2 A r).bedTargetTemp := by
    rw [hC, staleClean_bedTargetTemp, hrB, kB12]
  have a_btt : A.bedTargetTemp =
      if resolvedState s r = some "IDLE" ∨ resolvedState s r = some "FINISH"
      then some 0 else s.bedTargetTemp := by
    rw [hA, staleClean_bedTargetTemp, hrA, kA12]
  have c_hms : C.hms =
      if resolvedState s r = some "IDLE" ∨ resolvedState s r = some "FINISH"
      then some [] else (mergeFinal isH2 A r).hms := by
    rw [hC, staleClean_hms, hrB, kB28]
  have a_hms : A.hms =
      if resolvedState s r = some "IDLE" ∨ resolvedState s r = some "FINISH"
      then some [] else s.hms := by
    rw [hA, staleClean_hms, hrA, kA28]
  have c_pe : C.printError =
      if resolvedState s r = some "IDLE" ∨ resolvedState s r = some "FINISH"
      then (if r.print_error = none ∨ r.print_error = some 0
            then some 0 else (mergeFinal isH2 A r).printError)
      else (mergeFinal isH2 A r).printError := by
    rw [hC, staleClean_printError, hrB, kB25]
  have a_pe : A.printError =
      if resolvedState s r = some "IDLE" ∨ resolvedState s r = some "FINISH"
      then (if r.print_error = none ∨ r.print_error = some 0
            then some 0 else s.printError)
      else s.printError := by
    rw [hA, staleClean_printError, hrA, kA25]
  have c_pec : C.printErrorCode =
      if resolvedState s r = some "IDLE" ∨ resolvedState s r = some "FINISH"
      then (if r.print_error = none ∨ r.print_error = some 0
            then some "" else (mergeFinal isH2 A r).printErrorCode)
      else (mergeFinal isH2 A r).printErrorCode := by
    rw [hC, staleClean_printErrorCode, hrB, kB26]
  have a_pec : A.printErrorCode =
      if resolvedState s r = some "IDLE" ∨ resolvedState s r = some "FINISH"
      then (if r.print_error = none ∨ r.print_error = some 0
            then some "" else s.printErrorCode)
      else s.printErrorCode := by
    rw [hA, staleClean_printErrorCode, hrA, kA26]
  have c_cf : C.currentFile = (mergeFinal isH2 A r).currentFile := by
    rw [hC]; exact sB2.trans kB4
  have c_layer : C.layer = (mergeFinal isH2 A r).layer := by
    rw [hC]; exact sB3.trans kB5
  have c_tl : C.totalLayers = (mergeFinal isH2 A r).totalLayers := by
    rw [hC]; exact sB4.trans kB6
  have c_nT : C.nozzleTemp = (mergeFinal isH2 A r).nozzleTemp := by
    rw [hC]; exact aB1.trans kB7
  have c_n2 : C.nozzleTemp2 = (mergeFinal isH2 A r).nozzleTemp2 := by
    rw [hC]; exact aB2.trans kB9
  have c_bed : C.bedTemp = (mergeFinal isH2 A r).bedTemp := by
    rw [hC]; exact aB3.trans kB11
  have c_ct : C.chamberTemp = (applyCtc (mergeFinal isH2 A r) r).chamberTemp := by
    rw [hC]; exact aB4
  have a_ct : A.chamberTemp = (applyCtc s r).chamberTemp := by
    rw [hA]; exact aA4
  have c_pf : C.partFan = (mergeFinal isH2 A r).partFan := by
    rw [hC]; exact sB5.trans kB13
  have c_af : C.auxFan = (mergeFinal isH2 A r).auxFan := by
    rw [hC]; exact sB6.trans kB14
  have c_chf : C.chamberFan = (mergeFinal isH2 A r).chamberFan := by
    rw [hC]; exact sB7.trans kB15
  have c_cl : C.chamberLight = (mergeFinal isH2 A r).chamberLight := by
    rw [hC]; exact sB8.trans kB16
  have c_wl : C.workLight = (mergeFinal isH2 A r).workLight := by
    rw [hC]; exact sB9.trans kB17
  have c_sl : C.speedLevel = (mergeFinal isH2 A r).speedLevel := by
    rw [hC]; exact sB10.trans kB18
  have c_sm : C.speedMagnitude = (mergeFinal isH2 A r).speedMagnitude := by
    rw [hC]; exact sB11.trans kB19
  have c_ams : C.ams = (mergeFinal isH2 A r).ams := by
    rw [hC]; exact sB12.trans kB20
  have c_es : C.externalSpool = (mergeFinal isH2 A r).externalSpool := by
    rw [hC]; exact sB13.trans kB21
  have c_esl : C.externalSpools = (mergeFinal isH2 A r).externalSpools := by
    rw [hC]; exact sB14.trans kB22
  have c_wifi : C.wifiSignal = (mergeFinal isH2 A r).wifiSignal := by
    rw [hC]; exact sB15.trans kB23
  have c_pt : C.printType = (mergeFinal isH2 A r).printType := by
    rw [hC]; exact sB16.trans kB24
  have c_ps : C.printStage = (mergeFinal isH2 A r).printStage := by
    rw [hC]; exact sB17.trans kB27
  have hNT : nozzleTemps isH2 C r = nozzleTemps isH2 A r := by
    apply nozzleTemps_stable
    · exact Or.inr c_nT
    · by_cases hSC : resolvedState s r = some "IDLE" ∨ resolvedState s r = some "FINISH"
      · left
        rw [c_ntt, if_pos hSC, a_ntt, if_pos hSC]
      · right
        rw [c_ntt, if_neg hSC]
        rfl
    · exact Or.inr c_n2
    · by_cases hSC : resolvedState s r = some "IDLE" ∨ resolvedState s r = some "FINISH"
      · left
        rw [c_ntt2, if_pos hSC, a_ntt2, if_pos hSC]
      · right
        rw [c_ntt2, if_neg hSC]
        rfl
  apply Status.ext
  · rfl
  · show some ((r.gcode_state.or C.gcodeState).getD "IDLE") =
      some ((r.gcode_state.or A.gcodeState).getD "IDLE")
    rw [hgC, hgA]
  · show some ((r.mc_percent.or C.printProgress).getD 0) =
      some ((r.mc_percent.or A.printProgress).getD 0)
    by_cases hSC : resolvedState s r = some "IDLE" ∨ resolvedState s r = some "FINISH"
    · rw [c_pp, if_pos hSC, a_pp, if_pos hSC]
    · rw [c_pp, if_neg hSC]
      exact congrArg some (or_getD_idem _ _ _)
  · show some ((r.mc_remaining_time.or C.remainingTime).getD 0) =
      some ((r.mc_remaining_time.or A.remainingTime).getD 0)
    by_cases hSC : resolvedState s r = some "IDLE" ∨ resolvedState s r = some "FINISH"
    · rw [c_rt, if_pos hSC, a_rt, if_pos hSC]
    · rw [c_rt, if_neg hSC]
      exact congrArg some (or_getD_idem _ _ _)
  · show some (jsOrS r.gcode_file (jsOrS r.subtask_name (jsOrS C.currentFile ""))) =
      some (jsOrS r.gcode_file (jsOrS r.subtask_name (jsOrS A.currentFile "")))
    rw [c_cf]
    show some (jsOrS r.gcode_file (jsOrS r.subtask_name (jsOrS
      (some (jsOrS r.gcode_file (jsOrS r.subtask_name (jsOrS A.currentFile "")))) ""))) = _
    rw [jsOrS_some_empty]
    exact congrArg some (jsOrS_absorb _ _ _)
  · show some ((r.layer_num.or C.layer).getD 0) = some ((r.layer_num.or A.layer).getD 0)
    rw [c_layer]
    exact congrArg some (or_getD_idem _ _ _)
  · show some ((r.total_layer_num.or C.totalLayers).getD 0) =
      some ((r.total_layer_num.or A.totalLayers).getD 0)
    rw [c_tl]
    exact congrArg some (or_getD_idem _ _ _)
  · show some (nozzleTemps isH2 C r).1 = some (nozzleTemps isH2 A r).1
    rw [hNT]
  · show some (nozzleTemps isH2 C r).2.1 = some (nozzleTemps isH2 A r).2.1
    rw [hNT]
  · show (nozzleTemps isH2 C r).2.2.1 = (nozzleTemps isH2 A r).2.2.1
    rw [hNT]
  · show (nozzleTemps isH2 C r).2.2.2 = (nozzleTemps isH2 A r).2.2.2
    rw [hNT]
  · show some ((r.bed_temper.or C.bedTemp).getD 0) = some ((r.bed_temper.or A.bedTemp).getD 0)
    rw [c_bed]
    exact congrArg some (or_getD_idem _ _ _)
  · show some ((r.bed_target_temper.or C.bedTargetTemp).getD 0) =
      some ((r.bed_target_temper.or A.bedTargetTemp).getD 0)
    by_cases hSC : resolvedState s r = some "IDLE" ∨ resolvedState s r = some "FINISH"
    · rw [c_btt, if_pos hSC, a_btt, if_pos hSC]
    · rw [c_btt, if_neg hSC]
      exact congrArg some (or_getD_idem _ _ _)
  · show some (((r.chamber_temper.or (if isH2 then r.info_temp else none)).or
        C.chamberTemp).getD 0) =
      some (((r.chamber_temper.or (if isH2 then r.info_temp else none)).or
        A.chamberTemp).getD 0)
    cases hctc : r.ctc_temp with
    | some v =>
      have h1 : C.chamberTemp = some ((jsAnd v.toI32 65535 : Int) : ℚ) := by
        rw [c_ct, applyCtc_chamberTemp, hctc]
      have h2 : A.chamberTemp = some ((jsAnd v.toI32 65535 : Int) : ℚ) := by
        rw [a_ct, applyCtc_chamberTemp, hctc]
      rw [h1, h2]
    | none =>
      have h1 : C.chamberTemp = (mergeFinal isH2 A r).chamberTemp := by
        rw [c_ct, applyCtc_chamberTemp, hctc]
      rw [h1]
      exact congrArg some (or_getD_idem _ _ _)
  · show r.cooling_fan_speed.or C.partFan = r.cooling_fan_speed.or A.partFan
    rw [c_pf]
    exact or_or _ _
  · show r.big_fan1_speed.or C.auxFan = r.big_fan1_speed.or A.auxFan
    rw [c_af]
    exact or_or _ _
  · show r.big_fan2_speed.or C.chamberFan = r.big_fan2_speed.or A.chamberFan
    rw [c_chf]
    exact or_or _ _
  · show (match r.lights_report with
      | some lr => some (lightOn lr "chamber_light")
      | none => C.chamberLight) =
      (match r.lights_report with
      | some lr => some (lightOn lr "chamber_light")
      | none => A.chamberLight)
    cases hlr : r.lights_report with
    | some lr => rfl
    | none =>
      rw [c_cl]
      show (match r.lights_report with
        | some lr => some (lightOn lr "chamber_light")
        | none => A.chamberLight) = _
      rw [hlr]
  · show (match r.lights_report with
      | some lr => some (lightOn lr "chamber_light" || lightOn lr "chamber_light2"
          || lightOn lr "work_light")
      | none => C.workLight) =
      (match r.lights_report with
      | some lr => some (lightOn lr "chamber_light" || lightOn lr "chamber_light2"
          || lightOn lr "work_light")
      | none => A.workLight)
    cases hlr : r.lights_report with
    | some lr => rfl
    | none =>
      rw [c_wl]
      show (match r.lights_report with
        | some lr => some (lightOn lr "chamber_light" || lightOn lr "chamber_light2"
            || lightOn lr "work_light")
        | none => A.workLight) = _
      rw [hlr]
  · show r.spd_lvl.or C.speedLevel = r.spd_lvl.or A.speedLevel
    rw [c_sl]
    exact or_or _ _
  · show r.spd_mag.or C.speedMagnitude = r.spd_mag.or A.speedMagnitude
    rw [c_sm]
    exact or_or _ _
  · show (mergeAms C.ams r.ams).or C.ams = (mergeAms A.ams r.ams).or A.ams
    rw [c_ams]
    show (mergeAms ((mergeAms A.ams r.ams).or A.ams) r.ams).or
        ((mergeAms A.ams r.ams).or A.ams) = _
    cases hra : r.ams with
    | none => rfl
    | some a =>
      rw [mergeAms_idem]
      exact or_or _ _
  · show (mergeSpools r).1.or C.externalSpool = (mergeSpools r).1.or A.externalSpool
    rw [c_es]
    exact or_or _ _
  · show (if (mergeSpools r).2.length > 0 then some (mergeSpools r).2
        else C.externalSpools) =
      (if (mergeSpools r).2.length > 0 then some (mergeSpools r).2
        else A.externalSpools)
    by_cases hsp : (mergeSpools r).2.length > 0
    · rw [if_pos hsp, if_pos hsp]
    · rw [if_neg hsp, if_neg hsp, c_esl]
      show (if (mergeSpools r).2.length > 0 then some (mergeSpools r).2
        else A.externalSpools) = _
      rw [if_neg hsp]
  · show r.wifi_signal.or C.wifiSignal = r.wifi_signal.or A.wifiSignal
    rw [c_wifi]
    exact or_or _ _
  · show r.print_type.or C.printType = r.print_type.or A.printType
    rw [c_pt]
    exact or_or _ _
  · show some ((r.print_error.or C.printError).getD 0) =
      some ((r.print_error.or A.printError).getD 0)
    by_cases hSC : resolvedState s r = some "IDLE" ∨ resolvedState s r = some "FINISH"
    · by_cases hEC : r.print_error = none ∨ r.print_error = some 0
      · rw [c_pe, if_pos hSC, if_pos hEC, a_pe, if_pos hSC, if_pos hEC]
      · rw [c_pe, if_pos hSC, if_neg hEC]
        exact congrArg some (or_getD_idem _ _ _)
    · rw [c_pe, if_neg hSC]
      exact congrArg some (or_getD_idem _ _ _)
  · show some ((r.mc_print_error_code.or C.printErrorCode).getD "") =
      some ((r.mc_print_error_code.or A.printErrorCode).getD "")
    by_cases hSC : resolvedState s r = some "IDLE" ∨ resolvedState s r = some "FINISH"
    · by_cases hEC : r.print_error = none ∨ r.print_error = some 0
      · rw [c_pec, if_pos hSC, if_pos hEC, a_pec, if_pos hSC, if_pos hEC]
      · rw [c_pec, if_pos hSC, if_neg hEC]
        exact congrArg some (or_getD_idem _ _ _)
    · rw [c_pec, if_neg hSC]
      exact congrArg some (or_getD_idem _ _ _)
  · show r.mc_print_stage.or C.printStage = r.mc_print_stage.or A.printStage
    rw [c_ps]
    exact or_or _ _
  · simp only [mergeFinal]
    cases hh : r.hms with
    | some l => rfl
    | none =>
      by_cases hSC : resolvedState s r = some "IDLE" ∨ resolvedState s r = some "FINISH"
      · rw [c_hms, if_pos hSC, a_hms, if_pos hSC]
      · rw [c_hms, if_neg hSC]
        have hm : (mergeFinal isH2 A r).hms = some (A.hms.getD []) := by
          simp only [mergeFinal]
          rw [hh]
        rw [hm]
        rfl

/-- `C6`: for every previous snapshot `s` and raw report `r` whose
application leaves the lifecycle state unchanged, applying the telemetry
merge of the message handler twice with the same report yields the same
snapshot as applying it once: `merge(merge(s, r), r) = merge(s, r)`. -/
theorem mergeStatus_idem (isH2 : Bool) (s : Status) (r : Report)
    (h : (mergeStatus isH2 s r).gcodeState = s.gcodeState) :
    mergeStatus isH2 (mergeStatus isH2 s r) r = mergeStatus isH2 s r := by
  have hgA : (staleClean (applyCtc s r) r).gcodeState = s.gcodeState := by
    rw [staleClean_gcodeState, applyCtc_gcodeState]
  have hkey : some ((r.gcode_state.or
      (transitionReset (staleClean (applyCtc s r) r) r).gcodeState).getD "IDLE") =
      s.gcodeState := h
  rw [(transitionReset_keeps _ r).1, hgA] at hkey
  have hres : r.gcode_state.or s.gcodeState = s.gcodeState := by
    cases hg : r.gcode_state with
    | none => rfl
    | some v =>
      rw [hg] at hkey
      exact hkey
  have hq1 : resolvedState (staleClean (applyCtc s r) r) r =
      (staleClean (applyCtc s r) r).gcodeState := by
    unfold resolvedState
    rw [hgA]
    exact hres
  have ht1 := transitionReset_noop _ r hq1
  have hM : mergeStatus isH2 s r = mergeFinal isH2 (staleClean (applyCtc s r) r) r := by
    show mergeFinal isH2 (transitionReset (staleClean (applyCtc s r) r) r) r = _
    rw [ht1]
  have hBg : (mergeFinal isH2 (staleClean (applyCtc s r) r) r).gcodeState = s.gcodeState := by
    rw [← hM]
    exact h
  have hgC : (staleClean (applyCtc (mergeStatus isH2 s r) r) r).gcodeState = s.gcodeState := by
    rw [staleClean_gcodeState, applyCtc_gcodeState, h]
  have hq2 : resolvedState (staleClean (applyCtc (mergeStatus isH2 s r) r) r) r =
      (staleClean (applyCtc (mergeStatus isH2 s r) r) r).gcodeState := by
    unfold resolvedState
    rw [hgC]
    exact hres
  have ht2 := transitionReset_noop _ r hq2
  show mergeFinal isH2
      (transitionReset (staleClean (applyCtc (mergeStatus isH2 s r) r) r) r) r =
      mergeStatus isH2 s r
  rw [ht2, hM]
  exact mergeFinal_idem_aux isH2 s _ _ r rfl rfl hBg

/-- A running snapshot and a progress-only report for the `C6` witness. -/
def c6WPrev : Status :=
  { emptyStatus with gcodeState := some "RUNNING" }

/-- Report used by the `C6` witness. -/
def c6WReport : Report :=
  { emptyReport with mc_percent := some 50 }

/-- Witness for `C6` at a concrete running snapshot and progress report. -/
theorem mergeStatus_idem_witness :
    (mergeStatus false c6WPrev c6WReport).gcodeState = c6WPrev.gcodeState ∧
    mergeStatus false (mergeStatus false c6WPrev c6WReport) c6WReport =
      mergeStatus false c6WPrev c6WReport :=
  ⟨by decide, mergeStatus_idem false c6WPrev c6WReport (by decide)⟩

end Vafrum
